import Mathlib

/-!
Verification development for the SALOME geometry scripts
`SALOME/AIRFOIL/1_BASE_DESIGN/base_design.py` and
`SALOME/TEST/create_2d_square.py`.

The scripts are glue code around an external CAD/meshing toolkit.  The
embedding has two layers:

* a pure geometric layer over exact rational coordinates, mirroring the
  vertex/edge/wire/face/solid construction calls of the scripts
  (`MakeVertex`, `MakeEdge`, `MakeArc`, `MakeArcCenter`, `MakeWire`,
  `MakeFace`, `MakeVectorDXDYDZ`, `MakePrismVecH`);

* an effect layer (further below) that models the control flow of the scripts,
  exception propagation, logging/printing and the order of external
  calls, parameterized by an oracle that decides which external call
  raises and what each mesh `Compute` call returns.
-/

/-- A point created by `geompy.MakeVertex`: an (x, y, z) coordinate in
millimeters, modelled with exact rational coordinates. -/
structure Point where
  x : ℚ
  y : ℚ
  z : ℚ
deriving DecidableEq

/-- Model of `geompy.MakeVertex(x, y, z)`. -/
def MakeVertex (x y z : ℚ) : Point := ⟨x, y, z⟩

/-- An edge created by one of the edge constructors of the scripts: a straight
segment (`MakeEdge`), an arc given by center/first/last points
(`MakeArcCenter`), or an arc through three points (`MakeArc`). -/
inductive Edge where
  | seg (p1 p2 : Point)
  | arcCenter (c s e : Point) (sense : Bool)
  | arc3 (s m e : Point)
deriving DecidableEq

/-- Model of `geompy.MakeEdge(p1, p2)`. -/
def MakeEdge (p1 p2 : Point) : Edge := Edge.seg p1 p2

/-- Model of `geompy.MakeArcCenter(c, s, e, sense)`: an arc from `s` to `e` with
center `c`. -/
def MakeArcCenter (c s e : Point) (sense : Bool) : Edge :=
  Edge.arcCenter c s e sense

/-- Model of `geompy.MakeArc(s, m, e)`: an arc from `s` to `e` through the interior
point `m`. -/
def MakeArc (s m e : Point) : Edge := Edge.arc3 s m e

/-- The start point of an edge. -/
def Edge.startPoint : Edge → Point
  | Edge.seg p1 _ => p1
  | Edge.arcCenter _ s _ _ => s
  | Edge.arc3 s _ _ => s

/-- The end point of an edge. -/
def Edge.endPoint : Edge → Point
  | Edge.seg _ p2 => p2
  | Edge.arcCenter _ _ e _ => e
  | Edge.arc3 _ _ e => e

/-- A wire created by `geompy.MakeWire`: the ordered list of its edges. -/
structure Wire where
  edges : List Edge
deriving DecidableEq

/-- Model of `geompy.MakeWire(edges)`. -/
def MakeWire (es : List Edge) : Wire := ⟨es⟩

/-- A face created by `geompy.MakeFace(wire, isPlanarWanted)`: the
boundary wire together with the `isPlanarWanted` flag. -/
structure Face where
  boundary : Wire
  isPlanarWanted : ℕ
deriving DecidableEq

/-- Model of `geompy.MakeFace(w, isPlanarWanted)`. -/
def MakeFace (w : Wire) (isPlanarWanted : ℕ) : Face := ⟨w, isPlanarWanted⟩

/-- A vector created by `geompy.MakeVectorDXDYDZ`. -/
structure Vec3 where
  dx : ℚ
  dy : ℚ
  dz : ℚ
deriving DecidableEq

/-- Model of `geompy.MakeVectorDXDYDZ(dx, dy, dz)`. -/
def MakeVectorDXDYDZ (dx dy dz : ℚ) : Vec3 := ⟨dx, dy, dz⟩

/-- A solid created by `geompy.MakePrismVecH(face, vector, height)`. -/
structure Solid where
  base : Face
  dir : Vec3
  height : ℚ
deriving DecidableEq

/-- Model of `geompy.MakePrismVecH(f, v, h)`. -/
def MakePrismVecH (f : Face) (v : Vec3) (h : ℚ) : Solid := ⟨f, v, h⟩

/-- Whether consecutive edges chain: the end point of each edge equals
the start point of the next. -/
def edgesChainB : Edge → List Edge → Bool
  | _, [] => true
  | e, e2 :: rest =>
    decide (Edge.endPoint e = Edge.startPoint e2) && edgesChainB e2 rest

/-- The last edge of `e :: rest`. -/
def lastEdgeOf : Edge → List Edge → Edge
  | e, [] => e
  | _, e2 :: rest => lastEdgeOf e2 rest

/-- The closed-wire precondition for `MakeFace`: the edges chain
consecutively and the end point of the last edge equals the start point
of the first. -/
def isClosedWire : List Edge → Bool
  | [] => false
  | e :: rest =>
    edgesChainB e rest &&
      decide (Edge.endPoint (lastEdgeOf e rest) = Edge.startPoint e)

/-- The 2D cross product used to orient a point against a directed edge. -/
def cross2 (ax ay bx byy : ℚ) : ℚ := ax * byy - ay * bx

/-- The point `(px, py)` lies on the left of (or on) the directed edge
`e`, both taken in the z = 0 plane. -/
def leftOf (e : Edge) (px py : ℚ) : Prop :=
  0 ≤ cross2 (e.endPoint.x - e.startPoint.x) (e.endPoint.y - e.startPoint.y)
      (px - e.startPoint.x) (py - e.startPoint.y)

/-- Semantic interpretation of a planar face whose boundary wire is a
counterclockwise convex polygon in the z = 0 plane: the intersection of
the left half-planes of its directed boundary edges. -/
def Face.region (f : Face) : Set (ℚ × ℚ) :=
  {p | ∀ e ∈ f.boundary.edges, leftOf e p.1 p.2}

/-- Semantic interpretation of `MakePrismVecH` for a face lying in the
z = 0 plane extruded along a vector pointing in the +Z direction: the
prism of the face region with z ranging over `[0, height]`. -/
def Solid.points (s : Solid) : Set (ℚ × ℚ × ℚ) :=
  {q | (q.1, q.2.1) ∈ s.base.region ∧ 0 ≤ q.2.2 ∧ q.2.2 ≤ s.height}

namespace BaseDesign

/-! Geometry of `create_probe_geometry` in `base_design.py`, with the
source's local variable names, parameterized by `radius_mm`. -/

/-- Module-level constant `thickness = 1  # mm`. -/
def thickness : ℚ := 1

/-- Module-level constant `radius = 25.0  # mm`. -/
def radius : ℚ := 25

/-- Module-level constant `pitch_angle = 5.0  # degrees`. -/
def pitch_angle : ℚ := 5

/-- Module-level constant `cone_angle = 5.0  # degrees`. -/
def cone_angle : ℚ := 5

def center_bl (radius_mm : ℚ) : Point := MakeVertex radius_mm radius_mm 0

def start_bl (radius_mm : ℚ) : Point := MakeVertex 0 radius_mm 0

def end_bl (radius_mm : ℚ) : Point := MakeVertex radius_mm 0 0

/-- Bottom-left corner arc. -/
def arc_bl (radius_mm : ℚ) : Edge :=
  MakeArcCenter (center_bl radius_mm) (start_bl radius_mm) (end_bl radius_mm) false

def start_jutting : Point := MakeVertex 175 0 0

def end_jutting : Point := MakeVertex 175 50 0

def intermediate_jutting : Point := MakeVertex 200 25 0

/-- The 180-degree jutting section end arc. -/
def arc_jutting_end : Edge :=
  MakeArc start_jutting intermediate_jutting end_jutting

def start_inner (radius_mm : ℚ) : Point := MakeVertex (100 + radius_mm) 50 0

def end_inner (radius_mm : ℚ) : Point := MakeVertex 100 (50 + radius_mm) 0

def intermediate_inner (radius_mm : ℚ) : Point :=
  MakeVertex (100 + radius_mm * 0.293) (50 + radius_mm * 0.293) 0

/-- Inner concave corner arc. -/
def arc_inner (radius_mm : ℚ) : Edge :=
  MakeArc (start_inner radius_mm) (intermediate_inner radius_mm) (end_inner radius_mm)

def center_trs (radius_mm : ℚ) : Point :=
  MakeVertex (100 - radius_mm) (100 - radius_mm) 0

def start_trs (radius_mm : ℚ) : Point := MakeVertex 100 (100 - radius_mm) 0

def end_trs (radius_mm : ℚ) : Point := MakeVertex (100 - radius_mm) 100 0

/-- Top-right corner arc. -/
def arc_trs (radius_mm : ℚ) : Edge :=
  MakeArcCenter (center_trs radius_mm) (start_trs radius_mm) (end_trs radius_mm) false

def center_tl (radius_mm : ℚ) : Point :=
  MakeVertex radius_mm (100 - radius_mm) 0

def start_tl (radius_mm : ℚ) : Point := MakeVertex radius_mm 100 0

def end_tl (radius_mm : ℚ) : Point := MakeVertex 0 (100 - radius_mm) 0

/-- Top-left corner arc. -/
def arc_tl (radius_mm : ℚ) : Edge :=
  MakeArcCenter (center_tl radius_mm) (start_tl radius_mm) (end_tl radius_mm) false

def p_bottom_start (radius_mm : ℚ) : Point := MakeVertex radius_mm 0 0

def p_bottom_end : Point := MakeVertex 175 0 0

/-- Bottom edge. -/
def edge_bottom (radius_mm : ℚ) : Edge :=
  MakeEdge (p_bottom_start radius_mm) p_bottom_end

def p_top_jut_start : Point := MakeVertex 175 50 0

def p_top_jut_end (radius_mm : ℚ) : Point := MakeVertex (100 + radius_mm) 50 0

/-- Top jutting edge. -/
def edge_top_jut (radius_mm : ℚ) : Edge :=
  MakeEdge p_top_jut_start (p_top_jut_end radius_mm)

def p_top_sq_start (radius_mm : ℚ) : Point := MakeVertex (100 - radius_mm) 100 0

def p_top_sq_end (radius_mm : ℚ) : Point := MakeVertex radius_mm 100 0

/-- Top square edge. -/
def edge_top_sq (radius_mm : ℚ) : Edge :=
  MakeEdge (p_top_sq_start radius_mm) (p_top_sq_end radius_mm)

def p_left_start (radius_mm : ℚ) : Point := MakeVertex 0 (100 - radius_mm) 0

def p_left_end (radius_mm : ℚ) : Point := MakeVertex 0 radius_mm 0

/-- Left edge. -/
def edge_left (radius_mm : ℚ) : Edge :=
  MakeEdge (p_left_start radius_mm) (p_left_end radius_mm)

/-- The edge list assembled by `create_probe_geometry`, in source order. -/
def all_edges (radius_mm : ℚ) : List Edge :=
  [arc_bl radius_mm, edge_bottom radius_mm, arc_jutting_end,
   edge_top_jut radius_mm, arc_inner radius_mm, arc_trs radius_mm,
   edge_top_sq radius_mm, arc_tl radius_mm, edge_left radius_mm]

/-- Source line `wire = geompy.MakeWire(all_edges)`. -/
def wire (radius_mm : ℚ) : Wire := MakeWire (all_edges radius_mm)

/-- Source line `l_shaped_face = geompy.MakeFace(wire, 1)`. -/
def l_shaped_face (radius_mm : ℚ) : Face := MakeFace (wire radius_mm) 1

/-- Source line `vector = geompy.MakeVectorDXDYDZ(0, 0, thickness_mm)`. -/
def vector (thickness_mm : ℚ) : Vec3 := MakeVectorDXDYDZ 0 0 thickness_mm

/-- Source line `probe_3d = geompy.MakePrismVecH(l_shaped_face, vector, thickness_mm)`. -/
def probe_3d (thickness_mm radius_mm : ℚ) : Solid :=
  MakePrismVecH (l_shaped_face radius_mm) (vector thickness_mm) thickness_mm

end BaseDesign

namespace CreateSquare

/-! Geometry shared by `create_2d_square` and `create_3d_square_plate`
in `create_2d_square.py`, with the local variable names of the source,
parameterized by `side_length` (and `thickness` for the plate). -/

def vertex1 : Point := MakeVertex 0 0 0

def vertex2 (side_length : ℚ) : Point := MakeVertex side_length 0 0

def vertex3 (side_length : ℚ) : Point := MakeVertex side_length side_length 0

def vertex4 (side_length : ℚ) : Point := MakeVertex 0 side_length 0

def edge1 (side_length : ℚ) : Edge := MakeEdge vertex1 (vertex2 side_length)

def edge2 (side_length : ℚ) : Edge :=
  MakeEdge (vertex2 side_length) (vertex3 side_length)

def edge3 (side_length : ℚ) : Edge :=
  MakeEdge (vertex3 side_length) (vertex4 side_length)

def edge4 (side_length : ℚ) : Edge := MakeEdge (vertex4 side_length) vertex1

/-- Source line `wire = geompy.MakeWire([edge1, edge2, edge3, edge4])`. -/
def wire (side_length : ℚ) : Wire :=
  MakeWire [edge1 side_length, edge2 side_length, edge3 side_length,
    edge4 side_length]

/-- Source line `square_face = geompy.MakeFace(wire, 1)`. -/
def square_face (side_length : ℚ) : Face := MakeFace (wire side_length) 1

/-- Source line `vector = geompy.MakeVectorDXDYDZ(0, 0, thickness)`. -/
def vector (thickness : ℚ) : Vec3 := MakeVectorDXDYDZ 0 0 thickness

/-- Source line `square_solid = geompy.MakePrismVecH(square_face, vector, thickness)`. -/
def square_solid (side_length thickness : ℚ) : Solid :=
  MakePrismVecH (square_face side_length) (vector thickness) thickness

end CreateSquare

/-!
Effect layer.  Each external toolkit call made by the scripts is an
abstract step.  An oracle `Oracle` decides, per call index, whether the
call raises a Python exception, and what each `mesh.Compute()` call
returns when it does not raise.  Running a script fragment yields the
sequence of performed calls and emitted console/log messages, together
with either the returned value (`Res.ok`) or an uncaught exception
propagating out of the fragment (`Res.exn`).
-/

/-- The external-library operations invoked by the two scripts. -/
inductive ExtOp where
  | makeVertex
  | makeEdge
  | makeArc
  | makeArcCenter
  | makeWire
  | makeFace
  | makeVector
  | makePrism
  | rotateShape
  | addToStudy
  | meshInit
  | tetrahedron
  | maxElementVolume
  | triangle
  | maxElementArea
  | segmentAlgo
  | numberOfSegments
  | compute
  | exportSTL
deriving DecidableEq

/-- Tags for the console and log messages the scripts emit. -/
inductive Msg where
  | probeGeomStart
  | probeGeomDone
  | flightStart
  | flightDone
  | meshExportStart
  | stlExportedLog
  | meshGenFailed
  | runStart
  | runOk
  | runFailed
  | header
  | headerRule
  | creating2d
  | created2dSquare
  | meshGenerated
  | meshFailed
  | stlExported
  | stlExportError
  | errorCreatingGeometry
  | creating3d
  | createdPlate
  | mesh3dGenerated
  | mesh3dFailed
  | stl3dExported
  | stl3dExportError
  | errorCreating3dGeometry
  | bothOk
  | filesCreated
  | file2dLine
  | file3dLine
  | someErrors
  | completed
deriving DecidableEq

/-- An observable event of a script run. -/
inductive Ev where
  | call (op : ExtOp)
  | computed (ok : Bool)
  | print (m : Msg)
  | logInfo (m : Msg)
  | logError (m : Msg)
  | exitCall (code : ℕ)
deriving DecidableEq

/-- The behavior oracle for the external toolkit: `raises n` tells
whether the n-th external call raises, `computeOk n` the boolean result
of a `Compute` call made as the n-th external call. -/
structure Oracle where
  raises : ℕ → Bool
  computeOk : ℕ → Bool

/-- Result of running a script fragment: a returned value or an uncaught
exception, together with the next call index and the list of events the
fragment produced. -/
inductive Res (α : Type) where
  | ok (a : α) (n : ℕ) (tr : List Ev)
  | exn (n : ℕ) (tr : List Ev)
deriving DecidableEq

/-- The events produced by a run. -/
def Res.trace {α : Type} : Res α → List Ev
  | Res.ok _ _ tr => tr
  | Res.exn _ tr => tr

/-- The returned value of a run, if it did not raise. -/
def Res.retVal {α : Type} : Res α → Option α
  | Res.ok a _ _ => some a
  | Res.exn _ _ => none

/-- Whether the run returned normally. -/
def Res.isOk {α : Type} : Res α → Bool
  | Res.ok _ _ _ => true
  | Res.exn _ _ => false

/-- A script fragment: given the oracle and the current call index, it
produces a result. -/
def Act (α : Type) : Type := Oracle → ℕ → Res α

/-- A fragment that performs no call and returns `a`. -/
def Act.pure {α : Type} (a : α) : Act α := fun _ n => Res.ok a n []

/-- Sequencing of fragments; an exception in the first fragment skips
the second, as in straight-line Python code. -/
def Act.bind {α β : Type} (m : Act α) (f : α → Act β) : Act β := fun ext n =>
  match m ext n with
  | Res.ok a n2 tr1 =>
    match f a ext n2 with
    | Res.ok b n3 tr2 => Res.ok b n3 (tr1 ++ tr2)
    | Res.exn n3 tr2 => Res.exn n3 (tr1 ++ tr2)
  | Res.exn n2 tr1 => Res.exn n2 tr1

/-- A Python `try`/`except` block: if the body raises, the handler runs;
the outcome of the handler is the outcome of the block. -/
def Act.attempt {α : Type} (m : Act α) (h : Act α) : Act α := fun ext n =>
  match m ext n with
  | Res.ok a n2 tr1 => Res.ok a n2 tr1
  | Res.exn n2 tr1 =>
    match h ext n2 with
    | Res.ok b n3 tr2 => Res.ok b n3 (tr1 ++ tr2)
    | Res.exn n3 tr2 => Res.exn n3 (tr1 ++ tr2)

/-- Emit a console/log event; emitting cannot raise and performs no
external call. -/
def emit (e : Ev) : Act Unit := fun _ n => Res.ok () n [e]

/-- Perform one external call (other than `Compute`): the call is
recorded, and it raises according to the oracle. -/
def extCall (op : ExtOp) : Act Unit := fun ext n =>
  if ext.raises n then Res.exn (n + 1) [Ev.call op]
  else Res.ok () (n + 1) [Ev.call op]

/-- Perform a `mesh.Compute()` call: recorded like any call; when it
does not raise, its boolean result is given by the oracle and recorded. -/
def computeCall : Act Bool := fun ext n =>
  if ext.raises n then Res.exn (n + 1) [Ev.call ExtOp.compute]
  else Res.ok (ext.computeOk n) (n + 1)
    [Ev.call ExtOp.compute, Ev.computed (ext.computeOk n)]

/-- Perform a sequence of external calls, in order. -/
def extCalls : List ExtOp → Act Unit
  | [] => Act.pure ()
  | op :: ops => Act.bind (extCall op) (fun _ => extCalls ops)

namespace BaseDesign

/-- The external calls of `create_probe_geometry` (lines 41-103 of
`base_design.py`), in source order: the five arc constructions with
their vertices, the four straight edges with their vertices, then the
wire, face, extrusion vector and prism. -/
def probeGeomOps : List ExtOp :=
  [ExtOp.makeVertex, ExtOp.makeVertex, ExtOp.makeVertex, ExtOp.makeArcCenter,
   ExtOp.makeVertex, ExtOp.makeVertex, ExtOp.makeVertex, ExtOp.makeArc,
   ExtOp.makeVertex, ExtOp.makeVertex, ExtOp.makeVertex, ExtOp.makeArc,
   ExtOp.makeVertex, ExtOp.makeVertex, ExtOp.makeVertex, ExtOp.makeArcCenter,
   ExtOp.makeVertex, ExtOp.makeVertex, ExtOp.makeVertex, ExtOp.makeArcCenter,
   ExtOp.makeVertex, ExtOp.makeVertex, ExtOp.makeEdge,
   ExtOp.makeVertex, ExtOp.makeVertex, ExtOp.makeEdge,
   ExtOp.makeVertex, ExtOp.makeVertex, ExtOp.makeEdge,
   ExtOp.makeVertex, ExtOp.makeVertex, ExtOp.makeEdge,
   ExtOp.makeWire, ExtOp.makeFace, ExtOp.makeVector, ExtOp.makePrism]

/-- Model of `create_probe_geometry(thickness_mm, radius_mm)`: logs, performs the
geometry calls, logs again.  There is no `try`/`except` in this
function: any exception propagates to the caller. -/
def create_probe_geometry : Act Unit :=
  Act.bind (emit (Ev.logInfo Msg.probeGeomStart)) (fun _ =>
    Act.bind (extCalls probeGeomOps) (fun _ =>
      emit (Ev.logInfo Msg.probeGeomDone)))

/-- Model of `add_flight_angles(geometry, pitch_degrees, cone_degrees)`: logs,
builds the X axis, rotates, builds the Y axis, rotates, logs.  No
`try`/`except`. -/
def add_flight_angles : Act Unit :=
  Act.bind (emit (Ev.logInfo Msg.flightStart)) (fun _ =>
    Act.bind (extCalls [ExtOp.makeVector, ExtOp.rotateShape,
        ExtOp.makeVector, ExtOp.rotateShape]) (fun _ =>
      emit (Ev.logInfo Msg.flightDone)))

/-- The mesh configuration calls of `create_final_mesh_and_export`
(lines 128-140): mesh creation, 3D algorithm and max-volume hypothesis,
2D algorithm and max-area hypothesis, 1D algorithm and segment-count
hypothesis, in source order. -/
def meshSetupOps : List ExtOp :=
  [ExtOp.meshInit, ExtOp.tetrahedron, ExtOp.maxElementVolume,
   ExtOp.triangle, ExtOp.maxElementArea,
   ExtOp.segmentAlgo, ExtOp.numberOfSegments]

/-- Model of `create_final_mesh_and_export(geometry, output_file)`: configures
the mesh, computes; on success exports the STL and returns `True`, else
logs an error and returns `False`.  No `try`/`except`: any exception
(including one raised by `ExportSTL`) propagates. -/
def create_final_mesh_and_export : Act Bool :=
  Act.bind (emit (Ev.logInfo Msg.meshExportStart)) (fun _ =>
    Act.bind (extCalls meshSetupOps) (fun _ =>
      Act.bind computeCall (fun ok =>
        if ok then
          Act.bind (extCall ExtOp.exportSTL) (fun _ =>
            Act.bind (emit (Ev.logInfo Msg.stlExportedLog)) (fun _ =>
              Act.pure true))
        else
          Act.bind (emit (Ev.logError Msg.meshGenFailed)) (fun _ =>
            Act.pure false))))

/-- The first three statements of the `__main__` block of
`base_design.py`: the start log, `create_probe_geometry`, then
`add_flight_angles`. -/
def probe_preamble : Act Unit :=
  Act.bind (emit (Ev.logInfo Msg.runStart)) (fun _ =>
    Act.bind create_probe_geometry (fun _ => add_flight_angles))

/-- The `__main__` block of `base_design.py`, returning the process exit
code the script itself establishes: `0` when the run completes, `1` via
`exit(1)` when `create_final_mesh_and_export` returns `False`. -/
def probe_main : Act ℕ :=
  Act.bind probe_preamble (fun _ =>
    Act.bind create_final_mesh_and_export (fun success =>
      if success then
        Act.bind (emit (Ev.logInfo Msg.runOk)) (fun _ => Act.pure 0)
      else
        Act.bind (emit (Ev.logError Msg.runFailed)) (fun _ =>
          Act.bind (emit (Ev.exitCall 1)) (fun _ => Act.pure 1))))

/-- The process exit status of a probe script run: the code returned by
the `__main__` block, or `1` when an uncaught exception terminates the
interpreter. -/
def probe_process_exit (ext : Oracle) : ℕ :=
  match probe_main ext 0 with
  | Res.ok code _ _ => code
  | Res.exn _ _ => 1

/-- What the mesh/export stage of a probe script run reports: `some b`
when `create_final_mesh_and_export` returns the boolean `b`, `none` when
the stage is never reached or raises. -/
def probe_mesh_stage_result (ext : Oracle) : Option Bool :=
  match probe_preamble ext 0 with
  | Res.ok _ n2 _ => Res.retVal (create_final_mesh_and_export ext n2)
  | Res.exn _ _ => none

end BaseDesign

namespace CreateSquare

/-- The geometry calls of `create_2d_square` (lines 36-54): four
vertices, four edges, wire, face, and the study registration. -/
def squareGeomOps : List ExtOp :=
  [ExtOp.makeVertex, ExtOp.makeVertex, ExtOp.makeVertex, ExtOp.makeVertex,
   ExtOp.makeEdge, ExtOp.makeEdge, ExtOp.makeEdge, ExtOp.makeEdge,
   ExtOp.makeWire, ExtOp.makeFace, ExtOp.addToStudy]

/-- Model of `create_2d_square(side_length, output_file)`: the whole body is
wrapped in `try`/`except`; meshing attaches only the 2D triangle
algorithm with a max-area hypothesis; export has its own inner
`try`/`except`. -/
def create_2d_square : Act Bool :=
  Act.attempt
    (Act.bind (extCalls squareGeomOps) (fun _ =>
      Act.bind (emit (Ev.print Msg.created2dSquare)) (fun _ =>
        Act.bind (extCalls [ExtOp.meshInit, ExtOp.triangle,
            ExtOp.maxElementArea]) (fun _ =>
          Act.bind computeCall (fun ok =>
            if ok then
              Act.bind (emit (Ev.print Msg.meshGenerated)) (fun _ =>
                Act.attempt
                  (Act.bind (extCall ExtOp.exportSTL) (fun _ =>
                    Act.bind (emit (Ev.print Msg.stlExported)) (fun _ =>
                      Act.pure true)))
                  (Act.bind (emit (Ev.print Msg.stlExportError)) (fun _ =>
                    Act.pure false)))
            else
              Act.bind (emit (Ev.print Msg.meshFailed)) (fun _ =>
                Act.pure false))))))
    (Act.bind (emit (Ev.print Msg.errorCreatingGeometry)) (fun _ =>
      Act.pure false))

/-- The geometry calls of `create_3d_square_plate` (lines 101-123): four
vertices, four edges, wire, face, extrusion vector, prism, and the study
registration. -/
def plateGeomOps : List ExtOp :=
  [ExtOp.makeVertex, ExtOp.makeVertex, ExtOp.makeVertex, ExtOp.makeVertex,
   ExtOp.makeEdge, ExtOp.makeEdge, ExtOp.makeEdge, ExtOp.makeEdge,
   ExtOp.makeWire, ExtOp.makeFace, ExtOp.makeVector, ExtOp.makePrism,
   ExtOp.addToStudy]

/-- The mesh configuration calls of `create_3d_square_plate` (lines
128-140): mesh creation, 3D algorithm and max-volume hypothesis, 2D
algorithm and max-area hypothesis, 1D algorithm and segment-count
hypothesis, in source order. -/
def plateMeshOps : List ExtOp :=
  [ExtOp.meshInit, ExtOp.tetrahedron, ExtOp.maxElementVolume,
   ExtOp.triangle, ExtOp.maxElementArea,
   ExtOp.segmentAlgo, ExtOp.numberOfSegments]

/-- Model of `create_3d_square_plate(side_length, thickness, output_file)`: the
whole body is wrapped in `try`/`except`; meshing attaches 3D, 2D and 1D
algorithms with their hypotheses; export has its own inner
`try`/`except`. -/
def create_3d_square_plate : Act Bool :=
  Act.attempt
    (Act.bind (extCalls plateGeomOps) (fun _ =>
      Act.bind (emit (Ev.print Msg.createdPlate)) (fun _ =>
        Act.bind (extCalls plateMeshOps) (fun _ =>
          Act.bind computeCall (fun ok =>
            if ok then
              Act.bind (emit (Ev.print Msg.mesh3dGenerated)) (fun _ =>
                Act.attempt
                  (Act.bind (extCall ExtOp.exportSTL) (fun _ =>
                    Act.bind (emit (Ev.print Msg.stl3dExported)) (fun _ =>
                      Act.pure true)))
                  (Act.bind (emit (Ev.print Msg.stl3dExportError)) (fun _ =>
                    Act.pure false)))
            else
              Act.bind (emit (Ev.print Msg.mesh3dFailed)) (fun _ =>
                Act.pure false))))))
    (Act.bind (emit (Ev.print Msg.errorCreating3dGeometry)) (fun _ =>
      Act.pure false))

/-- The `__main__` block of `create_2d_square.py` (lines 162-182): the
header prints, the 2D stage, the 3D stage (called unconditionally), the
summary prints depending on both booleans, and the final print.  No
`exit` call anywhere. -/
def square_main : Act Unit :=
  Act.bind (emit (Ev.print Msg.header)) (fun _ =>
    Act.bind (emit (Ev.print Msg.headerRule)) (fun _ =>
      Act.bind (emit (Ev.print Msg.creating2d)) (fun _ =>
        Act.bind create_2d_square (fun success_2d =>
          Act.bind (emit (Ev.print Msg.creating3d)) (fun _ =>
            Act.bind create_3d_square_plate (fun success_3d =>
              Act.bind
                (if success_2d && success_3d then
                  Act.bind (emit (Ev.print Msg.bothOk)) (fun _ =>
                    Act.bind (emit (Ev.print Msg.filesCreated)) (fun _ =>
                      Act.bind (emit (Ev.print Msg.file2dLine)) (fun _ =>
                        emit (Ev.print Msg.file3dLine))))
                else
                  emit (Ev.print Msg.someErrors))
                (fun _ => emit (Ev.print Msg.completed))))))))

end CreateSquare

/-- The oracle on which every external call raises. -/
def extAllRaise : Oracle := ⟨fun _ => true, fun _ => false⟩

/-- The oracle on which no external call raises and every `Compute`
succeeds. -/
def extNoRaiseOk : Oracle := ⟨fun _ => false, fun _ => true⟩

/-- The oracle on which no external call raises and every `Compute`
returns `False`. -/
def extComputeFail : Oracle := ⟨fun _ => false, fun _ => false⟩

/-- The oracle on which exactly the call with index 36 raises: in the
probe script this is the first call of `add_flight_angles`, right after
the 36 geometry calls of `create_probe_geometry` succeeded. -/
def extRaiseAt36 : Oracle := ⟨fun i => i == 36, fun _ => false⟩

/-- Every event a fragment can ever produce satisfies `P`, whatever the
oracle and starting index. -/
def TraceIn {α : Type} (m : Act α) (P : Ev → Prop) : Prop :=
  ∀ ext n, ∀ e ∈ (m ext n).trace, P e

/-!
Trace predicates used to state the temporal claims, with the helper
lemmas that let them be verified compositionally along the call
sequences of the scripts.
-/

/-- Scan state: whether a `Compute` call has already returned `true` in
the scanned prefix. -/
def sawComputedTrue : List Ev → Bool → Bool
  | [], s => s
  | Ev.computed true :: tl, _ => sawComputedTrue tl true
  | _ :: tl, s => sawComputedTrue tl s

/-- Every `ExportSTL` call in the event list happens after some
`Compute` call returned `true` (scanning with initial state `s`). -/
def exportAfterComputeOk : List Ev → Bool → Bool
  | [], _ => true
  | Ev.call ExtOp.exportSTL :: tl, s => s && exportAfterComputeOk tl s
  | Ev.computed true :: tl, _ => exportAfterComputeOk tl true
  | _ :: tl, s => exportAfterComputeOk tl s

/-- Scan state for mesh configuration: whether the segment-count, the
max-area and the max-volume hypotheses have each been set in the
scanned prefix. -/
def hypsAfter : List Ev → Bool × Bool × Bool → Bool × Bool × Bool
  | [], st => st
  | Ev.call ExtOp.numberOfSegments :: tl, (_, a, v) => hypsAfter tl (true, a, v)
  | Ev.call ExtOp.maxElementArea :: tl, (s, _, v) => hypsAfter tl (s, true, v)
  | Ev.call ExtOp.maxElementVolume :: tl, (s, a, _) => hypsAfter tl (s, a, true)
  | _ :: tl, st => hypsAfter tl st

/-- Every `Compute` call in the event list happens after the
segment-count, max-area and max-volume hypotheses have all been set
(scanning with initial state `st`). -/
def hypsBeforeCompute : List Ev → Bool × Bool × Bool → Bool
  | [], _ => true
  | Ev.call ExtOp.compute :: tl, (s, a, v) =>
    s && a && v && hypsBeforeCompute tl (s, a, v)
  | e :: tl, st => hypsBeforeCompute tl (hypsAfter [e] st)

theorem sawComputedTrue_append (l1 l2 : List Ev) (s : Bool) :
    sawComputedTrue (l1 ++ l2) s = sawComputedTrue l2 (sawComputedTrue l1 s) := by
  induction l1 generalizing s with
  | nil => rfl
  | cons e tl ih =>
    cases e with
    | computed b => cases b <;> simp [sawComputedTrue, ih]
    | call op => simp [sawComputedTrue, ih]
    | print m => simp [sawComputedTrue, ih]
    | logInfo m => simp [sawComputedTrue, ih]
    | logError m => simp [sawComputedTrue, ih]
    | exitCall c => simp [sawComputedTrue, ih]

theorem exportAfterComputeOk_append (l1 l2 : List Ev) (s : Bool) :
    exportAfterComputeOk (l1 ++ l2) s =
      (exportAfterComputeOk l1 s &&
        exportAfterComputeOk l2 (sawComputedTrue l1 s)) := by
  induction l1 generalizing s with
  | nil => rfl
  | cons e tl ih =>
    cases e with
    | computed b =>
      cases b <;>
        simp [exportAfterComputeOk, sawComputedTrue, ih, Bool.and_assoc]
    | call op =>
      cases op <;>
        simp [exportAfterComputeOk, sawComputedTrue, ih, Bool.and_assoc]
    | print m => simp [exportAfterComputeOk, sawComputedTrue, ih]
    | logInfo m => simp [exportAfterComputeOk, sawComputedTrue, ih]
    | logError m => simp [exportAfterComputeOk, sawComputedTrue, ih]
    | exitCall c => simp [exportAfterComputeOk, sawComputedTrue, ih]

/-- A list of plain calls without `ExportSTL` passes the
export-after-compute scan from any state. -/
theorem exportAfterComputeOk_calls (l : List ExtOp) (s : Bool)
    (h : ExtOp.exportSTL ∉ l) :
    exportAfterComputeOk (l.map Ev.call) s = true := by
  induction l generalizing s with
  | nil => rfl
  | cons op tl ih =>
    simp only [List.mem_cons, not_or] at h
    cases op <;> cases s <;> simp_all [exportAfterComputeOk]

/-- A list of plain calls does not change the computed-true flag. -/
theorem sawComputedTrue_calls (l : List ExtOp) (s : Bool) :
    sawComputedTrue (l.map Ev.call) s = s := by
  induction l generalizing s with
  | nil => rfl
  | cons op tl ih => simp [sawComputedTrue, ih]

theorem hypsAfter_append (l1 l2 : List Ev) (st : Bool × Bool × Bool) :
    hypsAfter (l1 ++ l2) st = hypsAfter l2 (hypsAfter l1 st) := by
  induction l1 generalizing st with
  | nil => rfl
  | cons e tl ih =>
    obtain ⟨s, a, v⟩ := st
    cases e with
    | call op => cases op <;> simp [hypsAfter, ih]
    | computed b => simp [hypsAfter, ih]
    | print m => simp [hypsAfter, ih]
    | logInfo m => simp [hypsAfter, ih]
    | logError m => simp [hypsAfter, ih]
    | exitCall c => simp [hypsAfter, ih]

theorem hypsBeforeCompute_append (l1 l2 : List Ev) (st : Bool × Bool × Bool) :
    hypsBeforeCompute (l1 ++ l2) st =
      (hypsBeforeCompute l1 st && hypsBeforeCompute l2 (hypsAfter l1 st)) := by
  induction l1 generalizing st with
  | nil => rfl
  | cons e tl ih =>
    obtain ⟨s, a, v⟩ := st
    cases e with
    | call op =>
      cases op <;> simp [hypsBeforeCompute, hypsAfter, ih, Bool.and_assoc]
    | computed b => simp [hypsBeforeCompute, hypsAfter, ih]
    | print m => simp [hypsBeforeCompute, hypsAfter, ih]
    | logInfo m => simp [hypsBeforeCompute, hypsAfter, ih]
    | logError m => simp [hypsBeforeCompute, hypsAfter, ih]
    | exitCall c => simp [hypsBeforeCompute, hypsAfter, ih]

/-- A list of plain calls without `Compute` passes the
hypotheses-before-compute scan from any state. -/
theorem hypsBeforeCompute_calls (l : List ExtOp) (st : Bool × Bool × Bool)
    (h : ExtOp.compute ∉ l) :
    hypsBeforeCompute (l.map Ev.call) st = true := by
  induction l generalizing st with
  | nil => rfl
  | cons op tl ih =>
    simp only [List.mem_cons, not_or] at h
    obtain ⟨s, a, v⟩ := st
    cases op <;> cases s <;> cases a <;> cases v <;>
      simp_all [hypsBeforeCompute, hypsAfter]

/-- Characterization of running a plain call sequence: either no call
raises and all calls are performed, or the run stops at the first
raising call. -/
theorem extCalls_run (ops : List ExtOp) (ext : Oracle) (n : ℕ) :
    extCalls ops ext n = Res.ok () (n + ops.length) (ops.map Ev.call) ∨
    ∃ k, k < ops.length ∧
      extCalls ops ext n = Res.exn (n + k + 1) ((ops.take (k + 1)).map Ev.call) := by
  induction ops generalizing n with
  | nil => left; rfl
  | cons op tl ih =>
    by_cases h : ext.raises n = true
    · right
      refine ⟨0, by simp, ?_⟩
      simp [extCalls, extCall, Act.bind, h]
    · simp only [Bool.not_eq_true] at h
      rcases ih (n + 1) with h2 | ⟨k, hk, h2⟩
      · left
        simp [extCalls, extCall, Act.bind, h, h2]
        omega
      · right
        refine ⟨k + 1, by simpa using Nat.succ_lt_succ hk, ?_⟩
        simp [extCalls, extCall, Act.bind, h, h2, List.take_succ_cons]
        omega

theorem traceIn_pure {α : Type} (a : α) (P : Ev → Prop) :
    TraceIn (Act.pure a) P := by
  intro ext n e he
  simp [Act.pure, Res.trace] at he

theorem traceIn_emit (ev : Ev) (P : Ev → Prop) (h : P ev) :
    TraceIn (emit ev) P := by
  intro ext n e he
  simp [emit, Res.trace] at he
  simpa [he]

theorem traceIn_extCall (op : ExtOp) (P : Ev → Prop) (h : P (Ev.call op)) :
    TraceIn (extCall op) P := by
  intro ext n e he
  unfold extCall at he
  by_cases hr : ext.raises n = true <;> simp [hr, Res.trace] at he <;> simpa [he]

theorem traceIn_computeCall (P : Ev → Prop) (h1 : P (Ev.call ExtOp.compute))
    (h2 : ∀ b, P (Ev.computed b)) : TraceIn computeCall P := by
  intro ext n e he
  unfold computeCall at he
  by_cases hr : ext.raises n = true <;> simp [hr, Res.trace] at he
  · simpa [he]
  · rcases he with he | he <;> simp [he] <;> first | exact h1 | exact h2 _

theorem bind_trace {α β : Type} (m : Act α) (f : α → Act β) (ext : Oracle) (n : ℕ) :
    (Act.bind m f ext n).trace =
      (m ext n).trace ++
        (match m ext n with
          | Res.ok a n2 _ => (f a ext n2).trace
          | Res.exn _ _ => []) := by
  unfold Act.bind
  rcases hm : m ext n with ⟨a, n2, tr1⟩ | ⟨n2, tr1⟩
  · rcases hf : f a ext n2 with ⟨b, n3, tr2⟩ | ⟨n3, tr2⟩ <;>
      simp [hm, hf, Res.trace]
  · simp [hm, Res.trace]

theorem attempt_trace {α : Type} (m h : Act α) (ext : Oracle) (n : ℕ) :
    (Act.attempt m h ext n).trace =
      (m ext n).trace ++
        (match m ext n with
          | Res.ok _ _ _ => []
          | Res.exn n2 _ => (h ext n2).trace) := by
  unfold Act.attempt
  rcases hm : m ext n with ⟨a, n2, tr1⟩ | ⟨n2, tr1⟩
  · simp [hm, Res.trace]
  · rcases hh : h ext n2 with ⟨b, n3, tr2⟩ | ⟨n3, tr2⟩ <;>
      simp [hm, hh, Res.trace]

theorem bind_ok {α β : Type} {m : Act α} {f : α → Act β} {ext : Oracle}
    {n : ℕ} {a : α} {n2 : ℕ} {tr1 : List Ev} (hm : m ext n = Res.ok a n2 tr1) :
    Act.bind m f ext n =
      (match f a ext n2 with
        | Res.ok b n3 tr2 => Res.ok b n3 (tr1 ++ tr2)
        | Res.exn n3 tr2 => Res.exn n3 (tr1 ++ tr2)) := by
  unfold Act.bind
  rw [hm]

theorem bind_exn {α β : Type} {m : Act α} {f : α → Act β} {ext : Oracle}
    {n : ℕ} {n2 : ℕ} {tr1 : List Ev} (hm : m ext n = Res.exn n2 tr1) :
    Act.bind m f ext n = Res.exn n2 tr1 := by
  unfold Act.bind
  rw [hm]

theorem attempt_ok {α : Type} {m : Act α} (h : Act α) {ext : Oracle}
    {n : ℕ} {a : α} {n2 : ℕ} {tr1 : List Ev} (hm : m ext n = Res.ok a n2 tr1) :
    Act.attempt m h ext n = Res.ok a n2 tr1 := by
  unfold Act.attempt
  rw [hm]

theorem attempt_exn {α : Type} {m : Act α} (h : Act α) {ext : Oracle}
    {n : ℕ} {n2 : ℕ} {tr1 : List Ev} (hm : m ext n = Res.exn n2 tr1) :
    Act.attempt m h ext n =
      (match h ext n2 with
        | Res.ok b n3 tr2 => Res.ok b n3 (tr1 ++ tr2)
        | Res.exn n3 tr2 => Res.exn n3 (tr1 ++ tr2)) := by
  unfold Act.attempt
  rw [hm]

theorem traceIn_extCalls (ops : List ExtOp) (P : Ev → Prop)
    (h : ∀ op ∈ ops, P (Ev.call op)) : TraceIn (extCalls ops) P := by
  intro ext n e he
  rcases extCalls_run ops ext n with hr | ⟨k, _, hr⟩ <;> rw [hr] at he <;>
    simp only [Res.trace, List.mem_map] at he
  · obtain ⟨op, hop, rfl⟩ := he
    exact h op hop
  · obtain ⟨op, hop, rfl⟩ := he
    exact h op (List.take_subset _ _ hop)

theorem traceIn_bind {α β : Type} (m : Act α) (f : α → Act β) (P : Ev → Prop)
    (h1 : TraceIn m P) (h2 : ∀ a, TraceIn (f a) P) :
    TraceIn (Act.bind m f) P := by
  intro ext n e he
  rw [bind_trace] at he
  rcases List.mem_append.mp he with he | he
  · exact h1 ext n e he
  · rcases hm : m ext n with ⟨a, n2, tr1⟩ | ⟨n2, tr1⟩
    · rw [hm] at he
      exact h2 a ext n2 e he
    · rw [hm] at he
      simp at he

theorem traceIn_attempt {α : Type} (m h : Act α) (P : Ev → Prop)
    (h1 : TraceIn m P) (h2 : TraceIn h P) :
    TraceIn (Act.attempt m h) P := by
  intro ext n e he
  rw [attempt_trace] at he
  rcases List.mem_append.mp he with he | he
  · exact h1 ext n e he
  · rcases hm : m ext n with ⟨a, n2, tr1⟩ | ⟨n2, tr1⟩
    · rw [hm] at he
      simp at he
    · rw [hm] at he
      exact h2 ext n2 e he

theorem traceIn_ite {α : Type} (c : Prop) [Decidable c] (m1 m2 : Act α)
    (P : Ev → Prop) (h1 : TraceIn m1 P) (h2 : TraceIn m2 P) :
    TraceIn (if c then m1 else m2) P := by
  by_cases hc : c <;> simp [hc] <;> assumption

/-- Every event `create_2d_square` can produce is one of its own
external calls (the square geometry calls, the 2D meshing calls,
`Compute` or `ExportSTL`), a `Compute` result, or a console print. -/
theorem traceIn_create_2d (P : Ev → Prop)
    (hgeom : ∀ op ∈ CreateSquare.squareGeomOps, P (Ev.call op))
    (hmesh : ∀ op ∈ [ExtOp.meshInit, ExtOp.triangle, ExtOp.maxElementArea],
      P (Ev.call op))
    (hcompc : P (Ev.call ExtOp.compute)) (hexp : P (Ev.call ExtOp.exportSTL))
    (hcomp : ∀ b, P (Ev.computed b)) (hprint : ∀ m, P (Ev.print m)) :
    TraceIn CreateSquare.create_2d_square P := by
  unfold CreateSquare.create_2d_square
  apply traceIn_attempt
  · apply traceIn_bind _ _ _ (traceIn_extCalls _ _ hgeom)
    intro _
    apply traceIn_bind _ _ _ (traceIn_emit _ _ (hprint _))
    intro _
    apply traceIn_bind _ _ _ (traceIn_extCalls _ _ hmesh)
    intro _
    apply traceIn_bind _ _ _ (traceIn_computeCall _ hcompc hcomp)
    intro ok
    apply traceIn_ite
    · apply traceIn_bind _ _ _ (traceIn_emit _ _ (hprint _))
      intro _
      apply traceIn_attempt
      · apply traceIn_bind _ _ _ (traceIn_extCall _ _ hexp)
        intro _
        apply traceIn_bind _ _ _ (traceIn_emit _ _ (hprint _))
        intro _
        exact traceIn_pure _ _
      · apply traceIn_bind _ _ _ (traceIn_emit _ _ (hprint _))
        intro _
        exact traceIn_pure _ _
    · apply traceIn_bind _ _ _ (traceIn_emit _ _ (hprint _))
      intro _
      exact traceIn_pure _ _
  · apply traceIn_bind _ _ _ (traceIn_emit _ _ (hprint _))
    intro _
    exact traceIn_pure _ _

/-- Every event `create_3d_square_plate` can produce is one of its own
external calls, a `Compute` result, or a console print. -/
theorem traceIn_create_3d (P : Ev → Prop)
    (hgeom : ∀ op ∈ CreateSquare.plateGeomOps, P (Ev.call op))
    (hmesh : ∀ op ∈ CreateSquare.plateMeshOps, P (Ev.call op))
    (hcompc : P (Ev.call ExtOp.compute)) (hexp : P (Ev.call ExtOp.exportSTL))
    (hcomp : ∀ b, P (Ev.computed b)) (hprint : ∀ m, P (Ev.print m)) :
    TraceIn CreateSquare.create_3d_square_plate P := by
  unfold CreateSquare.create_3d_square_plate
  apply traceIn_attempt
  · apply traceIn_bind _ _ _ (traceIn_extCalls _ _ hgeom)
    intro _
    apply traceIn_bind _ _ _ (traceIn_emit _ _ (hprint _))
    intro _
    apply traceIn_bind _ _ _ (traceIn_extCalls _ _ hmesh)
    intro _
    apply traceIn_bind _ _ _ (traceIn_computeCall _ hcompc hcomp)
    intro ok
    apply traceIn_ite
    · apply traceIn_bind _ _ _ (traceIn_emit _ _ (hprint _))
      intro _
      apply traceIn_attempt
      · apply traceIn_bind _ _ _ (traceIn_extCall _ _ hexp)
        intro _
        apply traceIn_bind _ _ _ (traceIn_emit _ _ (hprint _))
        intro _
        exact traceIn_pure _ _
      · apply traceIn_bind _ _ _ (traceIn_emit _ _ (hprint _))
        intro _
        exact traceIn_pure _ _
    · apply traceIn_bind _ _ _ (traceIn_emit _ _ (hprint _))
      intro _
      exact traceIn_pure _ _
  · apply traceIn_bind _ _ _ (traceIn_emit _ _ (hprint _))
    intro _
    exact traceIn_pure _ _

/-- Every event `square_main` can ever produce is an external call, a
`Compute` result, or a console print: in particular the main block of the square script never calls `exit`. -/
theorem traceIn_square_main (P : Ev → Prop)
    (hcall : ∀ op, P (Ev.call op)) (hcomp : ∀ b, P (Ev.computed b))
    (hprint : ∀ m, P (Ev.print m)) : TraceIn CreateSquare.square_main P := by
  unfold CreateSquare.square_main
  apply traceIn_bind _ _ _ (traceIn_emit _ _ (hprint _))
  intro _
  apply traceIn_bind _ _ _ (traceIn_emit _ _ (hprint _))
  intro _
  apply traceIn_bind _ _ _ (traceIn_emit _ _ (hprint _))
  intro _
  apply traceIn_bind _ _ _ (traceIn_create_2d P (fun op _ => hcall op)
    (fun op _ => hcall op) (hcall _) (hcall _) hcomp hprint)
  intro s2
  apply traceIn_bind _ _ _ (traceIn_emit _ _ (hprint _))
  intro _
  apply traceIn_bind _ _ _ (traceIn_create_3d P (fun op _ => hcall op)
    (fun op _ => hcall op) (hcall _) (hcall _) hcomp hprint)
  intro s3
  apply traceIn_bind
  · apply traceIn_ite
    · apply traceIn_bind _ _ _ (traceIn_emit _ _ (hprint _))
      intro _
      apply traceIn_bind _ _ _ (traceIn_emit _ _ (hprint _))
      intro _
      apply traceIn_bind _ _ _ (traceIn_emit _ _ (hprint _))
      intro _
      exact traceIn_emit _ _ (hprint _)
    · exact traceIn_emit _ _ (hprint _)
  · intro _
    exact traceIn_emit _ _ (hprint _)

theorem attempt_isOk {α : Type} (m h : Act α)
    (H : ∀ ext n, (h ext n).isOk = true) (ext : Oracle) (n : ℕ) :
    (Act.attempt m h ext n).isOk = true := by
  rcases hm : m ext n with ⟨a, n2, tr1⟩ | ⟨n2, tr1⟩
  · rw [attempt_ok h hm]
    rfl
  · rw [attempt_exn h hm]
    rcases hh : h ext n2 with ⟨b, n3, tr2⟩ | ⟨n3, tr2⟩
    · simp [hh, Res.isOk]
    · have h2 := H ext n2
      rw [hh] at h2
      simp [Res.isOk] at h2

/-- `create_2d_square` never lets an exception escape: its whole body is
inside `try`/`except` and the handler only prints and returns `False`. -/
theorem create_2d_square_isOk (ext : Oracle) (n : ℕ) :
    (CreateSquare.create_2d_square ext n).isOk = true := by
  apply attempt_isOk
  intro ext2 n2
  rfl

/-- `create_3d_square_plate` never lets an exception escape. -/
theorem create_3d_square_plate_isOk (ext : Oracle) (n : ℕ) :
    (CreateSquare.create_3d_square_plate ext n).isOk = true := by
  apply attempt_isOk
  intro ext2 n2
  rfl

/-- Case analysis of a `create_final_mesh_and_export` run: a raise
during mesh setup, a raise in `Compute`, a `Compute` failure (returning
`False` without exporting), a raise in `ExportSTL`, or full success. -/
theorem final_mesh_cases (ext : Oracle) (n : ℕ) :
    (∃ k, k < BaseDesign.meshSetupOps.length ∧
      BaseDesign.create_final_mesh_and_export ext n =
        Res.exn (n + k + 1)
          (Ev.logInfo Msg.meshExportStart ::
            (BaseDesign.meshSetupOps.take (k + 1)).map Ev.call)) ∨
    BaseDesign.create_final_mesh_and_export ext n =
      Res.exn (n + 7 + 1)
        (Ev.logInfo Msg.meshExportStart ::
          (BaseDesign.meshSetupOps.map Ev.call ++ [Ev.call ExtOp.compute])) ∨
    BaseDesign.create_final_mesh_and_export ext n =
      Res.ok false (n + 7 + 1)
        (Ev.logInfo Msg.meshExportStart ::
          (BaseDesign.meshSetupOps.map Ev.call ++
            [Ev.call ExtOp.compute, Ev.computed false,
             Ev.logError Msg.meshGenFailed])) ∨
    BaseDesign.create_final_mesh_and_export ext n =
      Res.exn (n + 7 + 1 + 1)
        (Ev.logInfo Msg.meshExportStart ::
          (BaseDesign.meshSetupOps.map Ev.call ++
            [Ev.call ExtOp.compute, Ev.computed true,
             Ev.call ExtOp.exportSTL])) ∨
    BaseDesign.create_final_mesh_and_export ext n =
      Res.ok true (n + 7 + 1 + 1)
        (Ev.logInfo Msg.meshExportStart ::
          (BaseDesign.meshSetupOps.map Ev.call ++
            [Ev.call ExtOp.compute, Ev.computed true,
             Ev.call ExtOp.exportSTL, Ev.logInfo Msg.stlExportedLog])) := by
  rcases extCalls_run BaseDesign.meshSetupOps ext n with hops | ⟨k, hk, hops⟩
  · simp only [BaseDesign.meshSetupOps, List.length_cons, List.length_nil,
      List.map_cons, List.map_nil] at hops
    norm_num at hops
    by_cases hc : ext.raises (n + 7) = true
    · right; left
      simp [BaseDesign.create_final_mesh_and_export, BaseDesign.meshSetupOps,
        Act.bind, emit, computeCall, hops, hc]
    · simp only [Bool.not_eq_true] at hc
      by_cases hb : ext.computeOk (n + 7) = true
      · by_cases he : ext.raises (n + 7 + 1) = true
        · right; right; right; left
          simp [BaseDesign.create_final_mesh_and_export,
            BaseDesign.meshSetupOps, Act.bind, emit, computeCall, extCall,
            hops, hc, hb, he]
        · simp only [Bool.not_eq_true] at he
          right; right; right; right
          simp [BaseDesign.create_final_mesh_and_export,
            BaseDesign.meshSetupOps, Act.bind, emit, computeCall, extCall,
            Act.pure, hops, hc, hb, he]
      · simp only [Bool.not_eq_true] at hb
        right; right; left
        simp [BaseDesign.create_final_mesh_and_export,
          BaseDesign.meshSetupOps, Act.bind, emit, computeCall, Act.pure,
          hops, hc, hb]
  · left
    refine ⟨k, hk, ?_⟩
    simp only [BaseDesign.meshSetupOps] at hops
    simp [BaseDesign.create_final_mesh_and_export, BaseDesign.meshSetupOps,
      Act.bind, emit, hops]

theorem exportAfterComputeOk_of_no_export (l : List Ev) (s : Bool)
    (h : Ev.call ExtOp.exportSTL ∉ l) : exportAfterComputeOk l s = true := by
  induction l generalizing s with
  | nil => rfl
  | cons e tl ih =>
    simp only [List.mem_cons, not_or] at h
    obtain ⟨h1, h2⟩ := h
    cases e with
    | call op => cases op <;> cases s <;> simp_all [exportAfterComputeOk]
    | computed b => cases b <;> cases s <;> simp_all [exportAfterComputeOk]
    | print m => cases s <;> simp_all [exportAfterComputeOk]
    | logInfo m => cases s <;> simp_all [exportAfterComputeOk]
    | logError m => cases s <;> simp_all [exportAfterComputeOk]
    | exitCall c => cases s <;> simp_all [exportAfterComputeOk]

theorem hypsBeforeCompute_of_no_compute (l : List Ev) (st : Bool × Bool × Bool)
    (h : Ev.call ExtOp.compute ∉ l) : hypsBeforeCompute l st = true := by
  induction l generalizing st with
  | nil => rfl
  | cons e tl ih =>
    simp only [List.mem_cons, not_or] at h
    obtain ⟨h1, h2⟩ := h
    obtain ⟨s, a, v⟩ := st
    cases e with
    | call op =>
      cases op <;> cases s <;> cases a <;> cases v <;>
        simp_all [hypsBeforeCompute, hypsAfter]
    | computed b =>
      cases s <;> cases a <;> cases v <;>
        simp_all [hypsBeforeCompute, hypsAfter]
    | print m =>
      cases s <;> cases a <;> cases v <;>
        simp_all [hypsBeforeCompute, hypsAfter]
    | logInfo m =>
      cases s <;> cases a <;> cases v <;>
        simp_all [hypsBeforeCompute, hypsAfter]
    | logError m =>
      cases s <;> cases a <;> cases v <;>
        simp_all [hypsBeforeCompute, hypsAfter]
    | exitCall c =>
      cases s <;> cases a <;> cases v <;>
        simp_all [hypsBeforeCompute, hypsAfter]

/-- Appending a tail with the export-after-compute property to a prefix
of plain calls without `ExportSTL` preserves the property. -/
theorem exportScan_callmap_append (ops : List ExtOp) (j : ℕ) (B : List Ev)
    (hops : ExtOp.exportSTL ∉ ops)
    (hB : exportAfterComputeOk B false = true) :
    exportAfterComputeOk ((ops.take j).map Ev.call ++ B) false = true := by
  rw [exportAfterComputeOk_append,
    exportAfterComputeOk_calls _ _ (fun hm => hops (List.take_subset _ _ hm)),
    sawComputedTrue_calls]
  simpa using hB

/-- Export discipline of `create_2d_square`, for every oracle: every
`ExportSTL` call in its trace happens after `Compute` returned `true`,
and when `Compute` returns `false` the function returns `False` with no
export attempted. -/
theorem create_2d_run_props (ext : Oracle) (n : ℕ) :
    exportAfterComputeOk (CreateSquare.create_2d_square ext n).trace false = true ∧
    (Ev.computed false ∈ (CreateSquare.create_2d_square ext n).trace →
      (CreateSquare.create_2d_square ext n).retVal = some false ∧
      Ev.call ExtOp.exportSTL ∉ (CreateSquare.create_2d_square ext n).trace) := by
  rcases extCalls_run CreateSquare.squareGeomOps ext n with hg | ⟨k, hk, hg⟩
  · simp only [CreateSquare.squareGeomOps, List.length_cons, List.length_nil,
      List.map_cons, List.map_nil] at hg
    norm_num at hg
    rcases extCalls_run [ExtOp.meshInit, ExtOp.triangle, ExtOp.maxElementArea]
        ext (n + 11) with hm | ⟨j, hj, hm⟩
    · norm_num at hm
      by_cases hc : ext.raises (n + 14) = true
      · constructor
        · simp [CreateSquare.create_2d_square, CreateSquare.squareGeomOps,
            Act.attempt, Act.bind, emit, computeCall, Act.pure, hg, hm, hc,
            Res.trace, exportAfterComputeOk]
        · intro habs
          simp [CreateSquare.create_2d_square, CreateSquare.squareGeomOps,
            Act.attempt, Act.bind, emit, computeCall, Act.pure, hg, hm, hc,
            Res.trace] at habs
      · simp only [Bool.not_eq_true] at hc
        by_cases hb : ext.computeOk (n + 14) = true
        · by_cases he : ext.raises (n + 15) = true
          · constructor
            · simp [CreateSquare.create_2d_square, CreateSquare.squareGeomOps,
                Act.attempt, Act.bind, emit, computeCall, extCall, Act.pure,
                hg, hm, hc, hb, he, Res.trace, exportAfterComputeOk]
            · intro habs
              simp [CreateSquare.create_2d_square, CreateSquare.squareGeomOps,
                Act.attempt, Act.bind, emit, computeCall, extCall, Act.pure,
                hg, hm, hc, hb, he, Res.trace] at habs
          · simp only [Bool.not_eq_true] at he
            constructor
            · simp [CreateSquare.create_2d_square, CreateSquare.squareGeomOps,
                Act.attempt, Act.bind, emit, computeCall, extCall, Act.pure,
                hg, hm, hc, hb, he, Res.trace, exportAfterComputeOk]
            · intro habs
              simp [CreateSquare.create_2d_square, CreateSquare.squareGeomOps,
                Act.attempt, Act.bind, emit, computeCall, extCall, Act.pure,
                hg, hm, hc, hb, he, Res.trace] at habs
        · simp only [Bool.not_eq_true] at hb
          constructor
          · simp [CreateSquare.create_2d_square, CreateSquare.squareGeomOps,
              Act.attempt, Act.bind, emit, computeCall, Act.pure, hg, hm, hc,
              hb, Res.trace, exportAfterComputeOk]
          · intro _
            constructor
            · simp [CreateSquare.create_2d_square, CreateSquare.squareGeomOps,
                Act.attempt, Act.bind, emit, computeCall, Act.pure, hg, hm,
                hc, hb, Res.retVal]
            · simp [CreateSquare.create_2d_square, CreateSquare.squareGeomOps,
                Act.attempt, Act.bind, emit, computeCall, Act.pure, hg, hm,
                hc, hb, Res.trace]
    · constructor
      · simp only [CreateSquare.create_2d_square, Act.attempt, Act.bind, emit,
          Act.pure, CreateSquare.squareGeomOps, hg, hm, Res.trace]
        apply exportAfterComputeOk_of_no_export
        intro habs
        simp [List.mem_append, List.mem_map] at habs
        exact absurd (List.take_subset _ _ habs) (by decide)
      · intro habs
        simp only [CreateSquare.create_2d_square, Act.attempt, Act.bind, emit,
          Act.pure, CreateSquare.squareGeomOps, hg, hm, Res.trace] at habs
        simp [List.mem_append, List.mem_map] at habs
        exact absurd (List.take_subset _ _ habs) (by decide)
  · constructor
    · simp only [CreateSquare.create_2d_square, Act.attempt, Act.bind, emit,
        Act.pure, hg, Res.trace]
      apply exportAfterComputeOk_of_no_export
      intro habs
      simp [List.mem_append, List.mem_map] at habs
      exact absurd (List.take_subset _ _ habs) (by decide)
    · intro habs
      simp only [CreateSquare.create_2d_square, Act.attempt, Act.bind, emit,
        Act.pure, hg, Res.trace] at habs
      simp [List.mem_append, List.mem_map] at habs
      exact absurd (List.take_subset _ _ habs) (by decide)

/-- Export and mesh-configuration discipline of `create_3d_square_plate`,
for every oracle: exports only after `Compute` returned `true`; the
segment-count, max-area and max-volume hypotheses are all set before any
`Compute`; a `Compute` failure returns `False` with no export. -/
theorem create_3d_run_props (ext : Oracle) (n : ℕ) :
    exportAfterComputeOk (CreateSquare.create_3d_square_plate ext n).trace false = true ∧
    hypsBeforeCompute (CreateSquare.create_3d_square_plate ext n).trace
      (false, false, false) = true ∧
    (Ev.computed false ∈ (CreateSquare.create_3d_square_plate ext n).trace →
      (CreateSquare.create_3d_square_plate ext n).retVal = some false ∧
      Ev.call ExtOp.exportSTL ∉ (CreateSquare.create_3d_square_plate ext n).trace) := by
  rcases extCalls_run CreateSquare.plateGeomOps ext n with hg | ⟨k, hk, hg⟩
  · simp only [CreateSquare.plateGeomOps, List.length_cons, List.length_nil,
      List.map_cons, List.map_nil] at hg
    norm_num at hg
    rcases extCalls_run CreateSquare.plateMeshOps ext (n + 13) with hm | ⟨j, hj, hm⟩
    · simp only [CreateSquare.plateMeshOps, List.length_cons, List.length_nil,
        List.map_cons, List.map_nil] at hm
      norm_num at hm
      by_cases hc : ext.raises (n + 20) = true
      · refine ⟨?_, ?_, ?_⟩
        · simp [CreateSquare.create_3d_square_plate, CreateSquare.plateGeomOps,
            CreateSquare.plateMeshOps, Act.attempt, Act.bind, emit,
            computeCall, Act.pure, hg, hm, hc, Res.trace, exportAfterComputeOk]
        · simp [CreateSquare.create_3d_square_plate, CreateSquare.plateGeomOps,
            CreateSquare.plateMeshOps, Act.attempt, Act.bind, emit,
            computeCall, Act.pure, hg, hm, hc, Res.trace, hypsBeforeCompute,
            hypsAfter]
        · intro habs
          simp [CreateSquare.create_3d_square_plate, CreateSquare.plateGeomOps,
            CreateSquare.plateMeshOps, Act.attempt, Act.bind, emit,
            computeCall, Act.pure, hg, hm, hc, Res.trace] at habs
      · simp only [Bool.not_eq_true] at hc
        by_cases hb : ext.computeOk (n + 20) = true
        · by_cases he : ext.raises (n + 21) = true
          · refine ⟨?_, ?_, ?_⟩
            · simp [CreateSquare.create_3d_square_plate,
                CreateSquare.plateGeomOps, CreateSquare.plateMeshOps,
                Act.attempt, Act.bind, emit, computeCall, extCall, Act.pure,
                hg, hm, hc, hb, he, Res.trace, exportAfterComputeOk]
            · simp [CreateSquare.create_3d_square_plate,
                CreateSquare.plateGeomOps, CreateSquare.plateMeshOps,
                Act.attempt, Act.bind, emit, computeCall, extCall, Act.pure,
                hg, hm, hc, hb, he, Res.trace, hypsBeforeCompute, hypsAfter]
            · intro habs
              simp [CreateSquare.create_3d_square_plate,
                CreateSquare.plateGeomOps, CreateSquare.plateMeshOps,
                Act.attempt, Act.bind, emit, computeCall, extCall, Act.pure,
                hg, hm, hc, hb, he, Res.trace] at habs
          · simp only [Bool.not_eq_true] at he
            refine ⟨?_, ?_, ?_⟩
            · simp [CreateSquare.create_3d_square_plate,
                CreateSquare.plateGeomOps, CreateSquare.plateMeshOps,
                Act.attempt, Act.bind, emit, computeCall, extCall, Act.pure,
                hg, hm, hc, hb, he, Res.trace, exportAfterComputeOk]
            · simp [CreateSquare.create_3d_square_plate,
                CreateSquare.plateGeomOps, CreateSquare.plateMeshOps,
                Act.attempt, Act.bind, emit, computeCall, extCall, Act.pure,
                hg, hm, hc, hb, he, Res.trace, hypsBeforeCompute, hypsAfter]
            · intro habs
              simp [CreateSquare.create_3d_square_plate,
                CreateSquare.plateGeomOps, CreateSquare.plateMeshOps,
                Act.attempt, Act.bind, emit, computeCall, extCall, Act.pure,
                hg, hm, hc, hb, he, Res.trace] at habs
        · simp only [Bool.not_eq_true] at hb
          refine ⟨?_, ?_, ?_⟩
          · simp [CreateSquare.create_3d_square_plate,
              CreateSquare.plateGeomOps, CreateSquare.plateMeshOps,
              Act.attempt, Act.bind, emit, computeCall, Act.pure, hg, hm, hc,
              hb, Res.trace, exportAfterComputeOk]
          · simp [CreateSquare.create_3d_square_plate,
              CreateSquare.plateGeomOps, CreateSquare.plateMeshOps,
              Act.attempt, Act.bind, emit, computeCall, Act.pure, hg, hm, hc,
              hb, Res.trace, hypsBeforeCompute, hypsAfter]
          · intro _
            constructor
            · simp [CreateSquare.create_3d_square_plate,
                CreateSquare.plateGeomOps, CreateSquare.plateMeshOps,
                Act.attempt, Act.bind, emit, computeCall, Act.pure, hg, hm,
                hc, hb, Res.retVal]
            · simp [CreateSquare.create_3d_square_plate,
                CreateSquare.plateGeomOps, CreateSquare.plateMeshOps,
                Act.attempt, Act.bind, emit, computeCall, Act.pure, hg, hm,
                hc, hb, Res.trace]
    · refine ⟨?_, ?_, ?_⟩
      · simp only [CreateSquare.create_3d_square_plate, Act.attempt, Act.bind,
          emit, Act.pure, CreateSquare.plateGeomOps, hg, hm, Res.trace]
        apply exportAfterComputeOk_of_no_export
        intro habs
        simp [List.mem_append, List.mem_map] at habs
        exact absurd (List.take_subset _ _ habs)
          (by simp [CreateSquare.plateMeshOps])
      · simp only [CreateSquare.create_3d_square_plate, Act.attempt, Act.bind,
          emit, Act.pure, CreateSquare.plateGeomOps, hg, hm, Res.trace]
        apply hypsBeforeCompute_of_no_compute
        intro habs
        simp [List.mem_append, List.mem_map] at habs
        exact absurd (List.take_subset _ _ habs)
          (by simp [CreateSquare.plateMeshOps])
      · intro habs
        simp only [CreateSquare.create_3d_square_plate, Act.attempt, Act.bind,
          emit, Act.pure, CreateSquare.plateGeomOps, hg, hm, Res.trace] at habs
        simp [List.mem_append, List.mem_map] at habs
        exact absurd (List.take_subset _ _ habs)
          (by simp [CreateSquare.plateMeshOps])
  · refine ⟨?_, ?_, ?_⟩
    · simp only [CreateSquare.create_3d_square_plate, Act.attempt, Act.bind,
        emit, Act.pure, hg, Res.trace]
      apply exportAfterComputeOk_of_no_export
      intro habs
      simp [List.mem_append, List.mem_map] at habs
      exact absurd (List.take_subset _ _ habs) (by decide)
    · simp only [CreateSquare.create_3d_square_plate, Act.attempt, Act.bind,
        emit, Act.pure, hg, Res.trace]
      apply hypsBeforeCompute_of_no_compute
      intro habs
      simp [List.mem_append, List.mem_map] at habs
      exact absurd (List.take_subset _ _ habs) (by decide)
    · intro habs
      simp only [CreateSquare.create_3d_square_plate, Act.attempt, Act.bind,
        emit, Act.pure, hg, Res.trace] at habs
      simp [List.mem_append, List.mem_map] at habs
      exact absurd (List.take_subset _ _ habs) (by decide)

/-- Export and mesh-configuration discipline of
`create_final_mesh_and_export`, for every oracle. -/
theorem final_mesh_run_props (ext : Oracle) (n : ℕ) :
    exportAfterComputeOk (BaseDesign.create_final_mesh_and_export ext n).trace false = true ∧
    hypsBeforeCompute (BaseDesign.create_final_mesh_and_export ext n).trace
      (false, false, false) = true ∧
    (Ev.computed false ∈ (BaseDesign.create_final_mesh_and_export ext n).trace →
      (BaseDesign.create_final_mesh_and_export ext n).retVal = some false ∧
      Ev.call ExtOp.exportSTL ∉ (BaseDesign.create_final_mesh_and_export ext n).trace) := by
  rcases final_mesh_cases ext n with ⟨k, hk, hr⟩ | hr | hr | hr | hr <;> rw [hr]
  · refine ⟨?_, ?_, ?_⟩
    · simp only [Res.trace]
      rw [show Ev.logInfo Msg.meshExportStart ::
          (BaseDesign.meshSetupOps.take (k + 1)).map Ev.call =
          [Ev.logInfo Msg.meshExportStart] ++
            (BaseDesign.meshSetupOps.take (k + 1)).map Ev.call from rfl]
      apply exportAfterComputeOk_of_no_export
      intro habs
      simp [List.mem_append, List.mem_map] at habs
      exact absurd (List.take_subset _ _ habs) (by decide)
    · simp only [Res.trace]
      apply hypsBeforeCompute_of_no_compute
      intro habs
      simp [List.mem_append, List.mem_map] at habs
      exact absurd (List.take_subset _ _ habs) (by decide)
    · intro habs
      simp only [Res.trace] at habs
      simp [List.mem_append, List.mem_map] at habs
      exact absurd (List.take_subset _ _ habs) (by decide)
  · refine ⟨?_, ?_, ?_⟩
    · simp [Res.trace, BaseDesign.meshSetupOps, exportAfterComputeOk]
    · simp [Res.trace, BaseDesign.meshSetupOps, hypsBeforeCompute, hypsAfter]
    · intro habs
      simp [Res.trace, BaseDesign.meshSetupOps] at habs
  · refine ⟨?_, ?_, ?_⟩
    · simp [Res.trace, BaseDesign.meshSetupOps, exportAfterComputeOk]
    · simp [Res.trace, BaseDesign.meshSetupOps, hypsBeforeCompute, hypsAfter]
    · intro _
      constructor
      · simp [Res.retVal]
      · simp [Res.trace, BaseDesign.meshSetupOps]
  · refine ⟨?_, ?_, ?_⟩
    · simp [Res.trace, BaseDesign.meshSetupOps, exportAfterComputeOk]
    · simp [Res.trace, BaseDesign.meshSetupOps, hypsBeforeCompute, hypsAfter]
    · intro habs
      simp [Res.trace, BaseDesign.meshSetupOps] at habs
  · refine ⟨?_, ?_, ?_⟩
    · simp [Res.trace, BaseDesign.meshSetupOps, exportAfterComputeOk]
    · simp [Res.trace, BaseDesign.meshSetupOps, hypsBeforeCompute, hypsAfter]
    · intro habs
      simp [Res.trace, BaseDesign.meshSetupOps] at habs

theorem isOk_exists {α : Type} {r : Res α} (h : r.isOk = true) :
    ∃ a n2 tr, r = Res.ok a n2 tr := by
  cases r with
  | ok a n2 tr => exact ⟨a, n2, tr, rfl⟩
  | exn n2 tr => simp [Res.isOk] at h

/-- The main block of the square script always runs both stages: whatever the
oracle, `create_2d_square` returns a boolean, `create_3d_square_plate`
is then invoked unconditionally (its whole trace is part of the main
trace), and the run ends with the summary prints. -/
theorem square_main_runs_both (ext : Oracle) (n : ℕ) :
    ∃ s2 n2 tr2 s3 n3 tr3,
      CreateSquare.create_2d_square ext n = Res.ok s2 n2 tr2 ∧
      CreateSquare.create_3d_square_plate ext n2 = Res.ok s3 n3 tr3 ∧
      CreateSquare.square_main ext n = Res.ok () n3
        ([Ev.print Msg.header, Ev.print Msg.headerRule, Ev.print Msg.creating2d]
          ++ tr2 ++ (Ev.print Msg.creating3d :: tr3)
          ++ ((if s2 && s3 then
                [Ev.print Msg.bothOk, Ev.print Msg.filesCreated,
                 Ev.print Msg.file2dLine, Ev.print Msg.file3dLine]
              else [Ev.print Msg.someErrors]) ++ [Ev.print Msg.completed])) := by
  obtain ⟨s2, n2, tr2, h2⟩ := isOk_exists (create_2d_square_isOk ext n)
  obtain ⟨s3, n3, tr3, h3⟩ := isOk_exists (create_3d_square_plate_isOk ext n2)
  refine ⟨s2, n2, tr2, s3, n3, tr3, h2, h3, ?_⟩
  cases s2 <;> cases s3 <;>
    simp [CreateSquare.square_main, Act.bind, emit, Act.pure, h2, h3]

/-- If `create_probe_geometry` raises, the run of the probe script ends right
there: neither `add_flight_angles` nor the mesh/export stage executes. -/
theorem probe_aborts_on_geometry_exn (ext : Oracle) (n n2 : ℕ)
    (tr : List Ev)
    (h : BaseDesign.create_probe_geometry ext n = Res.exn n2 tr) :
    BaseDesign.probe_main ext n = Res.exn n2 (Ev.logInfo Msg.runStart :: tr) := by
  simp [BaseDesign.probe_main, BaseDesign.probe_preamble, Act.bind, emit, h]

/-- Under an oracle where no external call raises, the process exit
status of the probe script is nonzero exactly when the mesh/export stage
returns `False`. -/
theorem probe_exit_iff_mesh_failure_noRaise (ext : Oracle)
    (h : ∀ i, ext.raises i = false) :
    BaseDesign.probe_process_exit ext ≠ 0 ↔
      BaseDesign.probe_mesh_stage_result ext = some false := by
  cases hb : ext.computeOk 47 <;>
    simp [BaseDesign.probe_process_exit, BaseDesign.probe_main,
      BaseDesign.probe_preamble, BaseDesign.probe_mesh_stage_result,
      BaseDesign.create_probe_geometry, BaseDesign.add_flight_angles,
      BaseDesign.create_final_mesh_and_export, BaseDesign.probeGeomOps,
      BaseDesign.meshSetupOps, extCalls, extCall, computeCall, emit,
      Act.bind, Act.pure, Res.retVal, h, hb]

/-- The main block of the square script never sets an explicit exit code. -/
theorem square_main_no_exit (ext : Oracle) (n c : ℕ) :
    Ev.exitCall c ∉ (CreateSquare.square_main ext n).trace := by
  intro habs
  have h2 := traceIn_square_main (fun e => ∀ c2, e ≠ Ev.exitCall c2)
    (fun op c2 => by simp) (fun b c2 => by simp) (fun m c2 => by simp)
    ext n _ habs
  exact h2 c rfl

/-- Every event `create_probe_geometry` can produce is one of its own
geometry calls or an info log. -/
theorem traceIn_probe_geom (P : Ev → Prop)
    (hcall : ∀ op ∈ BaseDesign.probeGeomOps, P (Ev.call op))
    (hlog : ∀ m, P (Ev.logInfo m)) :
    TraceIn BaseDesign.create_probe_geometry P := by
  unfold BaseDesign.create_probe_geometry
  apply traceIn_bind _ _ _ (traceIn_emit _ _ (hlog _))
  intro _
  apply traceIn_bind _ _ _ (traceIn_extCalls _ _ hcall)
  intro _
  exact traceIn_emit _ _ (hlog _)

/-- Every event `add_flight_angles` can produce is one of its two
vector constructions, one of its two rotations, or an info log. -/
theorem traceIn_add_flight (P : Ev → Prop)
    (hcall : ∀ op ∈ [ExtOp.makeVector, ExtOp.rotateShape, ExtOp.makeVector,
      ExtOp.rotateShape], P (Ev.call op))
    (hlog : ∀ m, P (Ev.logInfo m)) :
    TraceIn BaseDesign.add_flight_angles P := by
  unfold BaseDesign.add_flight_angles
  apply traceIn_bind _ _ _ (traceIn_emit _ _ (hlog _))
  intro _
  apply traceIn_bind _ _ _ (traceIn_extCalls _ _ hcall)
  intro _
  exact traceIn_emit _ _ (hlog _)

/-- If `add_flight_angles` raises after the geometry stage succeeded,
the probe run ends right there: the mesh/export stage never executes,
so the main trace holds no mesh-creation and no export call. -/
theorem probe_aborts_on_flight_exn (ext : Oracle) (n n2 n3 : ℕ)
    (tr1 tr2 : List Ev)
    (hg : BaseDesign.create_probe_geometry ext n = Res.ok () n2 tr1)
    (hf : BaseDesign.add_flight_angles ext n2 = Res.exn n3 tr2) :
    BaseDesign.probe_main ext n =
      Res.exn n3 (Ev.logInfo Msg.runStart :: (tr1 ++ tr2)) ∧
    Ev.call ExtOp.meshInit ∉ (BaseDesign.probe_main ext n).trace ∧
    Ev.call ExtOp.exportSTL ∉ (BaseDesign.probe_main ext n).trace := by
  have hmain : BaseDesign.probe_main ext n =
      Res.exn n3 (Ev.logInfo Msg.runStart :: (tr1 ++ tr2)) := by
    simp [BaseDesign.probe_main, BaseDesign.probe_preamble, Act.bind, emit,
      hg, hf]
  have hgeom := traceIn_probe_geom
    (fun e => e ≠ Ev.call ExtOp.meshInit ∧ e ≠ Ev.call ExtOp.exportSTL)
    (by decide) (fun m => by simp) ext n
  rw [hg] at hgeom
  have hflight := traceIn_add_flight
    (fun e => e ≠ Ev.call ExtOp.meshInit ∧ e ≠ Ev.call ExtOp.exportSTL)
    (by decide) (fun m => by simp) ext n2
  rw [hf] at hflight
  refine ⟨hmain, ?_, ?_⟩ <;> rw [hmain] <;> intro habs <;>
    simp only [Res.trace, List.mem_cons, List.mem_append] at habs
  · rcases habs with h | h | h
    · simp at h
    · exact (hgeom _ h).1 rfl
    · exact (hflight _ h).1 rfl
  · rcases habs with h | h | h
    · simp at h
    · exact (hgeom _ h).2 rfl
    · exact (hflight _ h).2 rfl

/-- On every oracle, the meshing path of `create_2d_square` never
performs a 1D segment-algorithm, segment-count, 3D tetrahedron or
max-volume call. -/
theorem create_2d_never_1d_3d (ext : Oracle) (n : ℕ) :
    Ev.call ExtOp.segmentAlgo ∉ (CreateSquare.create_2d_square ext n).trace ∧
    Ev.call ExtOp.numberOfSegments ∉ (CreateSquare.create_2d_square ext n).trace ∧
    Ev.call ExtOp.tetrahedron ∉ (CreateSquare.create_2d_square ext n).trace ∧
    Ev.call ExtOp.maxElementVolume ∉ (CreateSquare.create_2d_square ext n).trace := by
  have h := traceIn_create_2d
    (fun e => e ≠ Ev.call ExtOp.segmentAlgo ∧
      e ≠ Ev.call ExtOp.numberOfSegments ∧
      e ≠ Ev.call ExtOp.tetrahedron ∧ e ≠ Ev.call ExtOp.maxElementVolume)
    (by decide) (by decide) (by decide) (by decide)
    (fun b => by simp) (fun m => by simp) ext n
  refine ⟨fun habs => (h _ habs).1 rfl, fun habs => (h _ habs).2.1 rfl,
    fun habs => (h _ habs).2.2.1 rfl, fun habs => (h _ habs).2.2.2 rfl⟩

/-- C1: for the default radius_mm = 25, the nine edges assembled by
`create_probe_geometry` (`arc_bl`, `edge_bottom`, `arc_jutting_end`,
`edge_top_jut`, `arc_inner`, `arc_trs`, `edge_top_sq`, `arc_tl`,
`edge_left`, in that order) chain into a geometrically closed loop: the
end point of each edge coincides with the start point of the next and
the end point of the last edge coincides with the start point of the
first, so the wire passed to `MakeFace` satisfies the closed-wire
precondition. -/
theorem probe_wire_closed_at_default_radius :
    BaseDesign.radius = 25 ∧
    (BaseDesign.l_shaped_face 25).boundary = MakeWire (BaseDesign.all_edges 25) ∧
    isClosedWire (BaseDesign.all_edges 25) = true := by
  refine ⟨rfl, rfl, ?_⟩
  simp only [BaseDesign.all_edges, BaseDesign.arc_bl, BaseDesign.edge_bottom,
    BaseDesign.arc_jutting_end, BaseDesign.edge_top_jut, BaseDesign.arc_inner,
    BaseDesign.arc_trs, BaseDesign.edge_top_sq, BaseDesign.arc_tl,
    BaseDesign.edge_left, BaseDesign.center_bl, BaseDesign.start_bl,
    BaseDesign.end_bl, BaseDesign.start_jutting, BaseDesign.end_jutting,
    BaseDesign.intermediate_jutting, BaseDesign.start_inner,
    BaseDesign.end_inner, BaseDesign.intermediate_inner, BaseDesign.center_trs,
    BaseDesign.start_trs, BaseDesign.end_trs, BaseDesign.center_tl,
    BaseDesign.start_tl, BaseDesign.end_tl, BaseDesign.p_bottom_start,
    BaseDesign.p_bottom_end, BaseDesign.p_top_jut_start,
    BaseDesign.p_top_jut_end, BaseDesign.p_top_sq_start,
    BaseDesign.p_top_sq_end, BaseDesign.p_left_start, BaseDesign.p_left_end,
    MakeVertex, MakeEdge, MakeArc, MakeArcCenter, isClosedWire, edgesChainB,
    lastEdgeOf, Edge.startPoint, Edge.endPoint]
  norm_num [Point.mk.injEq]

/-- C10: for every radius_mm, the inner concave arc ends at
(100, 50 + radius_mm, 0) while the top-right corner arc starts at
(100, 100 - radius_mm, 0); every other pair of consecutive edges (and
the last-to-first junction) chains for all radius_mm; and the whole
nine-edge wire is closed exactly when radius_mm = 25. -/
theorem probe_wire_closed_iff_radius_25 (radius_mm : ℚ) :
    (BaseDesign.arc_inner radius_mm).endPoint = MakeVertex 100 (50 + radius_mm) 0 ∧
    (BaseDesign.arc_trs radius_mm).startPoint = MakeVertex 100 (100 - radius_mm) 0 ∧
    (BaseDesign.arc_bl radius_mm).endPoint = (BaseDesign.edge_bottom radius_mm).startPoint ∧
    (BaseDesign.edge_bottom radius_mm).endPoint = BaseDesign.arc_jutting_end.startPoint ∧
    BaseDesign.arc_jutting_end.endPoint = (BaseDesign.edge_top_jut radius_mm).startPoint ∧
    (BaseDesign.edge_top_jut radius_mm).endPoint = (BaseDesign.arc_inner radius_mm).startPoint ∧
    (BaseDesign.arc_trs radius_mm).endPoint = (BaseDesign.edge_top_sq radius_mm).startPoint ∧
    (BaseDesign.edge_top_sq radius_mm).endPoint = (BaseDesign.arc_tl radius_mm).startPoint ∧
    (BaseDesign.arc_tl radius_mm).endPoint = (BaseDesign.edge_left radius_mm).startPoint ∧
    (BaseDesign.edge_left radius_mm).endPoint = (BaseDesign.arc_bl radius_mm).startPoint ∧
    (isClosedWire (BaseDesign.all_edges radius_mm) = true ↔ radius_mm = 25) := by
  refine ⟨rfl, rfl, rfl, rfl, rfl, rfl, rfl, rfl, rfl, rfl, ?_⟩
  simp only [BaseDesign.all_edges, BaseDesign.arc_bl, BaseDesign.edge_bottom,
    BaseDesign.arc_jutting_end, BaseDesign.edge_top_jut, BaseDesign.arc_inner,
    BaseDesign.arc_trs, BaseDesign.edge_top_sq, BaseDesign.arc_tl,
    BaseDesign.edge_left, BaseDesign.center_bl, BaseDesign.start_bl,
    BaseDesign.end_bl, BaseDesign.start_jutting, BaseDesign.end_jutting,
    BaseDesign.intermediate_jutting, BaseDesign.start_inner,
    BaseDesign.end_inner, BaseDesign.intermediate_inner, BaseDesign.center_trs,
    BaseDesign.start_trs, BaseDesign.end_trs, BaseDesign.center_tl,
    BaseDesign.start_tl, BaseDesign.end_tl, BaseDesign.p_bottom_start,
    BaseDesign.p_bottom_end, BaseDesign.p_top_jut_start,
    BaseDesign.p_top_jut_end, BaseDesign.p_top_sq_start,
    BaseDesign.p_top_sq_end, BaseDesign.p_left_start, BaseDesign.p_left_end,
    MakeVertex, MakeEdge, MakeArc, MakeArcCenter, isClosedWire, edgesChainB,
    lastEdgeOf, Edge.startPoint, Edge.endPoint]
  simp [Point.mk.injEq]
  constructor
  · intro h
    linarith
  · intro h
    rw [h]
    norm_num

/-- C8: the interior point of the inner concave corner arc of
`create_probe_geometry` is placed at exactly
(100 + 0.293 * radius_mm, 50 + 0.293 * radius_mm, 0), and the
hard-coded factor 0.293 approximates 1 - cos(45 degrees) to within
0.001. -/
theorem inner_arc_interior_point_factor (radius_mm : ℚ) :
    BaseDesign.arc_inner radius_mm =
      MakeArc (BaseDesign.start_inner radius_mm)
        (BaseDesign.intermediate_inner radius_mm)
        (BaseDesign.end_inner radius_mm) ∧
    BaseDesign.intermediate_inner radius_mm =
      MakeVertex (100 + 0.293 * radius_mm) (50 + 0.293 * radius_mm) 0 ∧
    |(0.293 : ℝ) - (1 - Real.cos (Real.pi / 4))| < 0.001 := by
  refine ⟨rfl, ?_, ?_⟩
  · simp only [BaseDesign.intermediate_inner, MakeVertex, Point.mk.injEq]
    constructor
    · ring
    · constructor
      · ring
      · trivial
  · have hs : Real.sqrt 2 * Real.sqrt 2 = 2 := Real.mul_self_sqrt (by norm_num)
    have h0 : (0 : ℝ) ≤ Real.sqrt 2 := Real.sqrt_nonneg 2
    have h1 : (1.414 : ℝ) < Real.sqrt 2 := by nlinarith
    have h2 : Real.sqrt 2 < 1.415 := by nlinarith
    rw [Real.cos_pi_div_four, abs_lt]
    constructor <;> nlinarith

/-- C2: with the arguments the square script's main entry passes
(side_length = 20, thickness = 2), the constructed solid is the
extrusion of the square face with corners (0,0,0), (20,0,0), (20,20,0),
(0,20,0) by 2 along the +Z direction, and its point set is exactly the
box [0,20] x [0,20] x [0,2]. -/
theorem square_plate_solid_is_box :
    CreateSquare.square_solid 20 2 =
      MakePrismVecH
        (MakeFace (MakeWire
          [MakeEdge (MakeVertex 0 0 0) (MakeVertex 20 0 0),
           MakeEdge (MakeVertex 20 0 0) (MakeVertex 20 20 0),
           MakeEdge (MakeVertex 20 20 0) (MakeVertex 0 20 0),
           MakeEdge (MakeVertex 0 20 0) (MakeVertex 0 0 0)]) 1)
        (MakeVectorDXDYDZ 0 0 2) 2 ∧
    Solid.points (CreateSquare.square_solid 20 2) =
      {q : ℚ × ℚ × ℚ | (0 ≤ q.1 ∧ q.1 ≤ 20) ∧ (0 ≤ q.2.1 ∧ q.2.1 ≤ 20) ∧
        (0 ≤ q.2.2 ∧ q.2.2 ≤ 2)} := by
  constructor
  · rfl
  · ext q
    obtain ⟨x, y, z⟩ := q
    simp only [Solid.points, Face.region, CreateSquare.square_solid,
      CreateSquare.square_face, CreateSquare.wire, CreateSquare.vector,
      CreateSquare.edge1, CreateSquare.edge2, CreateSquare.edge3,
      CreateSquare.edge4, CreateSquare.vertex1, CreateSquare.vertex2,
      CreateSquare.vertex3, CreateSquare.vertex4, MakeVertex, MakeEdge,
      MakeWire, MakeFace, MakeVectorDXDYDZ, MakePrismVecH, leftOf, cross2,
      Edge.startPoint, Edge.endPoint, Set.mem_setOf_eq, List.mem_cons,
      List.not_mem_nil, or_false, forall_eq_or_imp, forall_eq]
    norm_num
    constructor
    · rintro ⟨⟨ha, hb, hc, hd⟩, hz0, hz2⟩
      refine ⟨⟨by linarith, by linarith⟩, ⟨by linarith, by linarith⟩, hz0, hz2⟩
    · rintro ⟨⟨hx0, hx20⟩, ⟨hy0, hy20⟩, hz0, hz2⟩
      refine ⟨⟨by linarith, by linarith, by linarith, by linarith⟩, hz0, hz2⟩

/-- C3 counterexample: on the oracle where every external call raises,
the very first geometry call's exception propagates uncaught out of
`create_probe_geometry`, and likewise the first mesh call's exception
propagates out of `create_final_mesh_and_export`: `base_design.py` has
no `try`/`except` at all, contradicting the claim that no exception
propagates out of these functions. -/
theorem probe_functions_propagate_exceptions :
    (BaseDesign.create_probe_geometry extAllRaise 0).isOk = false ∧
    (BaseDesign.create_final_mesh_and_export extAllRaise 0).isOk = false := by
  constructor <;> rfl

/-- C3 amended: only the square script's functions wrap their bodies in
an error handler converting any raise into a printed message plus a
`False` return; the probe script's functions have no handler, so
exceptions propagate out of `create_probe_geometry` and
`create_final_mesh_and_export` (shown on the all-raising oracle). -/
theorem square_catches_probe_propagates :
    (∀ ext n, (CreateSquare.create_2d_square ext n).isOk = true) ∧
    (∀ ext n, (CreateSquare.create_3d_square_plate ext n).isOk = true) ∧
    CreateSquare.create_2d_square extAllRaise 0 =
      Res.ok false 1 [Ev.call ExtOp.makeVertex,
        Ev.print Msg.errorCreatingGeometry] ∧
    CreateSquare.create_3d_square_plate extAllRaise 0 =
      Res.ok false 1 [Ev.call ExtOp.makeVertex,
        Ev.print Msg.errorCreating3dGeometry] ∧
    (BaseDesign.create_probe_geometry extAllRaise 0).isOk = false ∧
    (BaseDesign.create_final_mesh_and_export extAllRaise 0).isOk = false := by
  refine ⟨create_2d_square_isOk, create_3d_square_plate_isOk, ?_, ?_, ?_, ?_⟩ <;> rfl

/-- C4 counterexample: on the oracle where every `Compute` returns
`False` (and nothing raises), `create_2d_square` returns `False`, yet
the square script's main block still invokes `create_3d_square_plate`
afterwards — its `MakePrismVecH` call appears in the main trace — so a
stage failure does not abort the remaining stages. -/
theorem square_main_continues_after_failure :
    (CreateSquare.create_2d_square extComputeFail 0).retVal = some false ∧
    Ev.call ExtOp.makePrism ∈ (CreateSquare.square_main extComputeFail 0).trace := by
  constructor
  · rfl
  · decide

/-- C4 amended: the probe script does abort on the first failure — an
exception in `create_probe_geometry` ends the run before the remaining
stages, and an exception in `add_flight_angles` (after the geometry
stage succeeded) ends the run before the mesh/export stage, whose
mesh-creation and export calls never appear in the trace — but the
square script's main block runs both stages unconditionally: whatever
the oracle, `create_2d_square` returns some boolean and
`create_3d_square_plate` is invoked afterwards, its whole trace being
part of the main trace; only the summary prints depend on the two
booleans. -/
theorem failure_handling_per_script :
    (∀ ext n, ∃ s2 n2 tr2 s3 n3 tr3,
      CreateSquare.create_2d_square ext n = Res.ok s2 n2 tr2 ∧
      CreateSquare.create_3d_square_plate ext n2 = Res.ok s3 n3 tr3 ∧
      CreateSquare.square_main ext n = Res.ok () n3
        ([Ev.print Msg.header, Ev.print Msg.headerRule, Ev.print Msg.creating2d]
          ++ tr2 ++ (Ev.print Msg.creating3d :: tr3)
          ++ ((if s2 && s3 then
                [Ev.print Msg.bothOk, Ev.print Msg.filesCreated,
                 Ev.print Msg.file2dLine, Ev.print Msg.file3dLine]
              else [Ev.print Msg.someErrors]) ++ [Ev.print Msg.completed]))) ∧
    (∀ ext n n2 tr, BaseDesign.create_probe_geometry ext n = Res.exn n2 tr →
      BaseDesign.probe_main ext n =
        Res.exn n2 (Ev.logInfo Msg.runStart :: tr)) ∧
    (∀ ext n n2 n3 tr1 tr2,
      BaseDesign.create_probe_geometry ext n = Res.ok () n2 tr1 →
      BaseDesign.add_flight_angles ext n2 = Res.exn n3 tr2 →
      BaseDesign.probe_main ext n =
        Res.exn n3 (Ev.logInfo Msg.runStart :: (tr1 ++ tr2)) ∧
      Ev.call ExtOp.meshInit ∉ (BaseDesign.probe_main ext n).trace ∧
      Ev.call ExtOp.exportSTL ∉ (BaseDesign.probe_main ext n).trace) :=
  ⟨square_main_runs_both, probe_aborts_on_geometry_exn,
    probe_aborts_on_flight_exn⟩

/-- C4 amended witness: on the all-raising oracle the probe run aborts
at the first geometry call, and on the oracle raising exactly at call
index 36 (the first `add_flight_angles` call) the run aborts after the
flight stage, with no mesh-creation or export call in its trace. -/
theorem failure_handling_per_script_witness :
    (BaseDesign.probe_main extAllRaise 0 =
      Res.exn 1 [Ev.logInfo Msg.runStart, Ev.logInfo Msg.probeGeomStart,
        Ev.call ExtOp.makeVertex]) ∧
    (BaseDesign.probe_main extRaiseAt36 0 =
      Res.exn 37 (Ev.logInfo Msg.runStart ::
        ((BaseDesign.create_probe_geometry extRaiseAt36 0).trace ++
          (BaseDesign.add_flight_angles extRaiseAt36 36).trace)) ∧
      Ev.call ExtOp.meshInit ∉ (BaseDesign.probe_main extRaiseAt36 0).trace ∧
      Ev.call ExtOp.exportSTL ∉ (BaseDesign.probe_main extRaiseAt36 0).trace) :=
  ⟨failure_handling_per_script.2.1 extAllRaise 0 1
      [Ev.logInfo Msg.probeGeomStart, Ev.call ExtOp.makeVertex] (by rfl),
    failure_handling_per_script.2.2 extRaiseAt36 0 36 37
      (BaseDesign.create_probe_geometry extRaiseAt36 0).trace
      (BaseDesign.add_flight_angles extRaiseAt36 36).trace
      (by decide) (by decide)⟩

/-- C5 counterexample: on the oracle where nothing raises and `Compute`
succeeds, the meshing path of `create_2d_square` reaches `Compute` but
never attaches a 1D segment algorithm, a segment-count hypothesis, a 3D
tetrahedron algorithm or a max-tetrahedron-volume hypothesis,
contradicting the claim that every meshing path attaches 1D, 2D and 3D
algorithms with their hypotheses. -/
theorem square_2d_path_lacks_1d_3d_hypotheses :
    Ev.call ExtOp.compute ∈ (CreateSquare.create_2d_square extNoRaiseOk 0).trace ∧
    Ev.call ExtOp.segmentAlgo ∉ (CreateSquare.create_2d_square extNoRaiseOk 0).trace ∧
    Ev.call ExtOp.numberOfSegments ∉ (CreateSquare.create_2d_square extNoRaiseOk 0).trace ∧
    Ev.call ExtOp.tetrahedron ∉ (CreateSquare.create_2d_square extNoRaiseOk 0).trace ∧
    Ev.call ExtOp.maxElementVolume ∉ (CreateSquare.create_2d_square extNoRaiseOk 0).trace := by
  decide

/-- C5 amended: the two volumetric meshing paths
(`create_final_mesh_and_export` and `create_3d_square_plate`) set the
segment-count, max-area and max-volume hypotheses before every
`Compute` call, on every oracle; the 2D-square path attaches only the
2D triangle algorithm with its max-area hypothesis before `Compute`, as
its successful run shows, and on every oracle it never performs a 1D
segment-algorithm, segment-count, 3D tetrahedron or max-volume call. -/
theorem mesh_hypotheses_before_compute :
    (∀ ext n, hypsBeforeCompute
      (BaseDesign.create_final_mesh_and_export ext n).trace
      (false, false, false) = true) ∧
    (∀ ext n, hypsBeforeCompute
      (CreateSquare.create_3d_square_plate ext n).trace
      (false, false, false) = true) ∧
    CreateSquare.create_2d_square extNoRaiseOk 0 =
      Res.ok true 16
        [Ev.call ExtOp.makeVertex, Ev.call ExtOp.makeVertex,
         Ev.call ExtOp.makeVertex, Ev.call ExtOp.makeVertex,
         Ev.call ExtOp.makeEdge, Ev.call ExtOp.makeEdge,
         Ev.call ExtOp.makeEdge, Ev.call ExtOp.makeEdge,
         Ev.call ExtOp.makeWire, Ev.call ExtOp.makeFace,
         Ev.call ExtOp.addToStudy, Ev.print Msg.created2dSquare,
         Ev.call ExtOp.meshInit, Ev.call ExtOp.triangle,
         Ev.call ExtOp.maxElementArea, Ev.call ExtOp.compute,
         Ev.computed true, Ev.print Msg.meshGenerated,
         Ev.call ExtOp.exportSTL, Ev.print Msg.stlExported] ∧
    Ev.call ExtOp.segmentAlgo ∉ (CreateSquare.create_2d_square extNoRaiseOk 0).trace ∧
    Ev.call ExtOp.tetrahedron ∉ (CreateSquare.create_2d_square extNoRaiseOk 0).trace ∧
    (∀ ext n,
      Ev.call ExtOp.segmentAlgo ∉ (CreateSquare.create_2d_square ext n).trace ∧
      Ev.call ExtOp.numberOfSegments ∉ (CreateSquare.create_2d_square ext n).trace ∧
      Ev.call ExtOp.tetrahedron ∉ (CreateSquare.create_2d_square ext n).trace ∧
      Ev.call ExtOp.maxElementVolume ∉ (CreateSquare.create_2d_square ext n).trace) := by
  refine ⟨fun ext n => (final_mesh_run_props ext n).2.1,
    fun ext n => (create_3d_run_props ext n).2.1, ?_, ?_, ?_,
    create_2d_never_1d_3d⟩
  · decide
  · decide
  · decide

/-- C6: in every execution path of both scripts, `ExportSTL` is invoked
only after `Compute` has returned `true` for that mesh, and if `Compute`
returns `false` the function returns `False` without attempting the
export — for `create_final_mesh_and_export`, `create_2d_square` and
`create_3d_square_plate` alike. -/
theorem export_only_after_successful_compute (ext : Oracle) (n : ℕ) :
    (exportAfterComputeOk
        (BaseDesign.create_final_mesh_and_export ext n).trace false = true ∧
      (Ev.computed false ∈ (BaseDesign.create_final_mesh_and_export ext n).trace →
        (BaseDesign.create_final_mesh_and_export ext n).retVal = some false ∧
        Ev.call ExtOp.exportSTL ∉
          (BaseDesign.create_final_mesh_and_export ext n).trace)) ∧
    (exportAfterComputeOk
        (CreateSquare.create_2d_square ext n).trace false = true ∧
      (Ev.computed false ∈ (CreateSquare.create_2d_square ext n).trace →
        (CreateSquare.create_2d_square ext n).retVal = some false ∧
        Ev.call ExtOp.exportSTL ∉ (CreateSquare.create_2d_square ext n).trace)) ∧
    (exportAfterComputeOk
        (CreateSquare.create_3d_square_plate ext n).trace false = true ∧
      (Ev.computed false ∈ (CreateSquare.create_3d_square_plate ext n).trace →
        (CreateSquare.create_3d_square_plate ext n).retVal = some false ∧
        Ev.call ExtOp.exportSTL ∉
          (CreateSquare.create_3d_square_plate ext n).trace)) :=
  ⟨⟨(final_mesh_run_props ext n).1, (final_mesh_run_props ext n).2.2⟩,
    create_2d_run_props ext n,
    ⟨(create_3d_run_props ext n).1, (create_3d_run_props ext n).2.2⟩⟩

/-- C6 witness: on the oracle whose `Compute` returns `False`, the probe
mesh stage's trace contains the failed `Compute`, the stage returns
`False`, and no export is attempted. -/
theorem export_only_after_successful_compute_witness :
    Ev.computed false ∈
      (BaseDesign.create_final_mesh_and_export extComputeFail 0).trace ∧
    (BaseDesign.create_final_mesh_and_export extComputeFail 0).retVal =
      some false ∧
    Ev.call ExtOp.exportSTL ∉
      (BaseDesign.create_final_mesh_and_export extComputeFail 0).trace :=
  ⟨by decide, (export_only_after_successful_compute extComputeFail 0).1.2 (by decide)⟩

/-- C7 counterexample: on the all-raising oracle the probe process exit
status is nonzero (the uncaught exception terminates the interpreter)
although the mesh/export stage never reported failure (it never ran), so
the exit status is not equivalent to `create_final_mesh_and_export`
returning `False`. -/
theorem probe_exit_not_iff_mesh_failure :
    BaseDesign.probe_process_exit extAllRaise ≠ 0 ∧
    BaseDesign.probe_mesh_stage_result extAllRaise ≠ some false := by
  constructor <;> decide

/-- C7 amended: when no external call raises, the probe script's process
exit status is nonzero exactly when `create_final_mesh_and_export`
returns `False` (when a call raises, the propagating exception ends the
run with a nonzero status without the stage reporting); and the square
script's main block never sets an explicit exit code, on any oracle. -/
theorem probe_exit_vs_square_exit :
    (∀ ext : Oracle, (∀ i, ext.raises i = false) →
      (BaseDesign.probe_process_exit ext ≠ 0 ↔
        BaseDesign.probe_mesh_stage_result ext = some false)) ∧
    (∀ ext n c, Ev.exitCall c ∉ (CreateSquare.square_main ext n).trace) :=
  ⟨probe_exit_iff_mesh_failure_noRaise, square_main_no_exit⟩

/-- C7 amended witness: on the no-raise, compute-failing oracle. -/
theorem probe_exit_vs_square_exit_witness :
    BaseDesign.probe_process_exit extComputeFail ≠ 0 ↔
      BaseDesign.probe_mesh_stage_result extComputeFail = some false :=
  probe_exit_vs_square_exit.1 extComputeFail (fun i => rfl)
